import Mathlib

/-!
# ollama-dns-router: health-probe selection and Pi-hole record replacement

A shallow embedding of `src/main.go`.  The program talks to the outside world
through four library calls (`http.Client.Get`, `net.LookupIP`,
`http.DefaultClient.Do`, `url.Parse`); each of them is a field of `World`, so
every theorem holds for every behaviour of the network.  A run produces the
list of `Event`s it caused, in order.
-/

namespace OllamaDNSRouter

/-! ## Data model -/

/-- A non-nil Go `error`, identified with its message. -/
abbrev GoError := String

/-- The pair `(resp, err)` returned by `client.Get` and `client.Do`: either a
non-nil error, or a response of which the program can read the status code and
the body. -/
inductive HttpResult where
  | fail (err : GoError)
  | resp (statusCode : Int) (body : String)
  deriving DecidableEq

/-- Go's `net.IP`, a byte slice. -/
abbrev IP := List Nat

/-- The pair `(ips, err)` returned by `net.LookupIP`. -/
inductive LookupResult where
  | fail (err : GoError)
  | addrs (ips : List IP)
  deriving DecidableEq

/-- The part of Go's `url.URL` that the program reads: the `Host` field
(`host` or `host:port`). -/
structure URL where
  Host : String
  deriving DecidableEq

/-- An `http.Request` built by `http.NewRequest(method, url, nil)`.  `URL` is
Go's `req.URL`, the parsed URL (of which `req.Host` is the `Host`).  `url` is
not a field of Go's struct: it is the text the request was built from, kept
because the model of `url.URL` does not separate path and query. -/
structure Request where
  method : String
  url : String
  URL : URL
  deriving DecidableEq

/-- The pair `(req, err)` returned by `http.NewRequest`. -/
inductive RequestResult where
  | fail (err : GoError)
  | ok (req : Request)
  deriving DecidableEq

/-- The pair `(u, err)` returned by `url.Parse`. -/
inductive ParseResult where
  | fail (err : GoError)
  | ok (u : URL)
  deriving DecidableEq

/-- Go's `http.StatusOK`. -/
def StatusOK : Int := 200

/-- Go's `http.MethodPost`. -/
def MethodPost : String := "POST"

/-- Levels of the zap logger used by the program. -/
inductive Level where
  | info
  | error
  | fatal
  deriving DecidableEq

/-- What a run does that is visible from outside, in order. -/
inductive Event where
  /-- A call of `ic.client.Get(url)` that returned `r`. -/
  | probe (url : String) (r : HttpResult)
  /-- A call of `net.LookupIP(host)` that returned `r`. -/
  | lookup (host : String) (r : LookupResult)
  /-- A call of `http.DefaultClient.Do(req)` that returned `r`. -/
  | request (req : Request) (r : HttpResult)
  /-- The logger wrote `msg` at level `lvl`. -/
  | log (lvl : Level) (msg : String)
  deriving DecidableEq

/-- The environment of a run.  `clientGet n url` is the result of the `n`-th
call (counting from 0) of `ic.client.Get` in the run, `clientDo n req` the
result of the `n`-th call of `http.DefaultClient.Do`; `lookupIP` is called at
most once in a run.  `urlParse`, `parseIPv6` and `ipv6String` are the pure
library functions `url.Parse`, the IPv6 branch of `net.ParseIP` and the IPv6
branch of `net.IP.String`. -/
structure World where
  clientGet : Nat → String → HttpResult
  lookupIP : String → LookupResult
  clientDo : Nat → Request → HttpResult
  urlParse : String → ParseResult
  parseIPv6 : String → Option IP
  ipv6String : IP → String

/-- The `Provider.Pihole` member of `Settings`. -/
structure Pihole where
  Hostname : String
  APIKey : String
  deriving DecidableEq

/-- The `Provider` member of `Settings`. -/
structure Provider where
  Pihole : Pihole
  deriving DecidableEq

/-- The `Settings` struct of `main.go`, lines 15-24. -/
structure Settings where
  Instances : List String
  Provider : Provider
  OllamaRecord : String
  deriving DecidableEq

/-- How `createDNSRecord` ends: it returns `nil`, returns a non-nil error, or
panics. -/
inductive Outcome where
  | ok
  | err (e : GoError)
  | panic (msg : String)
  deriving DecidableEq

/-- How `main` ends: it returns (exit status 0), `logger.Fatal` ends the
process (exit status 1), or a panic does. -/
inductive Exit where
  | normal
  | fatal (msg : String)
  | panic (msg : String)
  deriving DecidableEq

/-! ## Trace projections -/

/-- The URLs probed, in order. -/
def probesOf : List Event → List String
  | [] => []
  | Event.probe url _ :: rest => url :: probesOf rest
  | _ :: rest => probesOf rest

/-- The provider requests issued, in order. -/
def requestsOf : List Event → List Request
  | [] => []
  | Event.request req _ :: rest => req :: requestsOf rest
  | _ :: rest => requestsOf rest

/-- The method and the URL text of the provider requests issued, in order. -/
def requestTextsOf (t : List Event) : List (String × String) :=
  (requestsOf t).map (fun req => (req.method, req.url))

/-- The hosts looked up, in order. -/
def lookupsOf : List Event → List String
  | [] => []
  | Event.lookup host _ :: rest => host :: lookupsOf rest
  | _ :: rest => lookupsOf rest

/-- The messages logged, with their levels, in order. -/
def logsOf : List Event → List (Level × String)
  | [] => []
  | Event.log lvl msg :: rest => (lvl, msg) :: logsOf rest
  | _ :: rest => logsOf rest

/-! ## Library code the program calls: `net/url` -/

/-- Go's `strings.LastIndexByte`, `none` for `-1`. -/
def lastIndexByte : List Char → Char → Option Nat
  | [], _ => none
  | x :: xs, c =>
    match lastIndexByte xs c with
    | some i => some (i + 1)
    | none => if x = c then some 0 else none

/-- Go's `url.validOptionalPort`: the empty string, or `:` followed by
digits only. -/
def validOptionalPort : List Char → Bool
  | [] => true
  | c :: rest => c == ':' && rest.all Char.isDigit

/-- The host part computed by Go's `url.splitHostPort`: a valid port after
the last colon is cut off, then surrounding square brackets are removed. -/
def splitHostPort (hostPort : List Char) : List Char :=
  let host :=
    match lastIndexByte hostPort ':' with
    | some colon => if validOptionalPort (hostPort.drop colon) then hostPort.take colon else hostPort
    | none => hostPort
  if host.head? = some '[' ∧ host.getLast? = some ']' then (host.drop 1).take (host.length - 2)
  else host

/-- Go's `(*url.URL).Hostname`. -/
def URL.Hostname (u : URL) : String :=
  String.mk (splitHostPort u.Host.data)

/-! ## Library code the program calls: `net` -/

/-- The loop of Go's `netip.parseIPv4`.  `prev` is `s[i-1]` (`none` when
`i == 0`), `fields` the octets stored so far (`pos` is its length), `val` and
`digLen` the value and the number of digits of the current octet.  The result
is the stored octets and the value of the last one. -/
def parseIPv4Loop : List Char → Option Char → List Nat → Nat → Nat → Option (List Nat × Nat)
  | [], _, fields, val, _ => some (fields, val)
  | c :: rest, prev, fields, val, digLen =>
    if c.isDigit then
      if digLen = 1 ∧ val = 0 then none
      else if val * 10 + (c.toNat - 48) > 255 then none
      else parseIPv4Loop rest (some c) fields (val * 10 + (c.toNat - 48)) (digLen + 1)
    else if c = '.' then
      if prev = none ∨ rest = [] ∨ prev = some '.' then none
      else if fields.length = 3 then none
      else parseIPv4Loop rest (some c) (fields ++ [val]) 0 0
    else none

/-- Go's `netip.parseIPv4`: the four octets of a dotted-decimal address. -/
def parseIPv4 (s : String) : Option (List Nat) :=
  match parseIPv4Loop s.data none [] 0 0 with
  | none => none
  | some (fields, val) => if fields.length < 3 then none else some (fields ++ [val])

/-- Go's `netip.Addr.As16` of an IPv4 address: the IPv4-mapped form. -/
def as16 (v4 : List Nat) : IP :=
  [0, 0, 0, 0, 0, 0, 0, 0, 0, 0, 255, 255] ++ v4

/-- Go's `net.ParseIP`: the text is handed to the IPv4 or the IPv6 parser
according to which of `.` and `:` comes first; `none` is Go's `nil`. -/
def ParseIP (w : World) (s : String) : Option IP :=
  match s.data.find? (fun c => c = '.' ∨ c = ':' ∨ c = '%') with
  | some '.' => (parseIPv4 s).map as16
  | some ':' => w.parseIPv6 s
  | _ => none

/-- Go's `net.IP.To4`; `[]` is Go's `nil`. -/
def To4 (ip : IP) : IP :=
  if ip.length = 4 then ip
  else if ip.length = 16 ∧ (ip.take 10).all (fun b => b == 0) ∧ ip.getD 10 0 = 255
      ∧ ip.getD 11 0 = 255 then
    ip.drop 12
  else []

/-- Go's `netip.digits`, the constant `"0123456789"`. -/
def digits : List Char := ['0', '1', '2', '3', '4', '5', '6', '7', '8', '9']

/-- Go's `netip.appendDecimal`: an octet in decimal, without leading zeros. -/
def appendDecimal (b : List Char) (x : Nat) : List Char :=
  let b := if x ≥ 100 then b ++ [digits.getD (x / 100) '0'] else b
  let b := if x ≥ 10 then b ++ [digits.getD (x / 10 % 10) '0'] else b
  b ++ [digits.getD (x % 10) '0']

/-- Go's `netip.Addr.string4`: the dotted-decimal text of four octets. -/
def string4 (a b c d : Nat) : String :=
  let ret := appendDecimal [] a
  let ret := ret ++ ['.']
  let ret := appendDecimal ret b
  let ret := ret ++ ['.']
  let ret := appendDecimal ret c
  let ret := ret ++ ['.']
  let ret := appendDecimal ret d
  String.mk ret

/-- Go's `net.hexDigit`, the constant `"0123456789abcdef"`. -/
def hexDigit : List Char :=
  ['0', '1', '2', '3', '4', '5', '6', '7', '8', '9', 'a', 'b', 'c', 'd', 'e', 'f']

/-- Go's `net.hexString`. -/
def hexString (b : List Nat) : List Char :=
  b.flatMap (fun tn => [hexDigit.getD (tn / 16) '0', hexDigit.getD (tn % 16) '0'])

/-- Go's `net.IP.String`. -/
def IP.String (w : World) (ip : IP) : String :=
  if ip.length = 0 then "<nil>"
  else if ip.length ≠ 4 ∧ ip.length ≠ 16 then String.mk ('?' :: hexString ip)
  else
    match To4 ip with
    | [a, b, c, d] => string4 a b c d
    | _ => w.ipv6String ip

/-! ## Library code the program calls: `net/http` -/

/-- Go's `http.hasPort`: the last colon comes after the last closing
bracket (an index of `-1` standing for no occurrence). -/
def hasPort (s : List Char) : Bool :=
  match lastIndexByte s ':', lastIndexByte s ']' with
  | some i, some j => decide (j < i)
  | some _, none => true
  | none, _ => false

/-- Go's `strings.TrimSuffix`. -/
def TrimSuffix (s suffix : List Char) : List Char :=
  if suffix.isSuffixOf s then s.take (s.length - suffix.length) else s

/-- Go's `http.removeEmptyPort`: a host that ends in an empty port loses the
colon. -/
def removeEmptyPort (host : String) : String :=
  if hasPort host.data then String.mk (TrimSuffix host.data [':']) else host

/-- Go's `http.NewRequest(method, url, nil)` for a valid method such as
`POST`: it fails exactly when `url.Parse` rejects the URL, and otherwise
stores the parsed URL, the empty port removed from its host. -/
def NewRequest (w : World) (method url : String) : RequestResult :=
  match w.urlParse url with
  | ParseResult.fail err => RequestResult.fail err
  | ParseResult.ok u => RequestResult.ok ⟨method, url, ⟨removeEmptyPort u.Host⟩⟩

/-! ## The program -/

/-- The method `InstanceChecker.checkAvailability`, `main.go` lines 48-63, as
the `n`-th probe of the run: the returned pair `(bool, error)` and the events
caused. -/
def checkAvailability (w : World) (n : Nat) (url : String) :
    (Bool × Option GoError) × List Event :=
  match w.clientGet n url with
  | HttpResult.fail err =>
    ((false, some err),
      [Event.probe url (HttpResult.fail err), Event.log Level.error "health check failed"])
  | HttpResult.resp statusCode body =>
    if statusCode ≠ StatusOK then
      ((false, none),
        [Event.probe url (HttpResult.resp statusCode body),
          Event.log Level.info "instance health check failed"])
    else
      ((true, none), [Event.probe url (HttpResult.resp statusCode body)])

/-- The selection loop of `main`, lines 146-152, started when `n` probes have
been issued: the final value of `availableInstance` and the events caused. -/
def selectInstance (w : World) (n : Nat) : List String → String × List Event
  | [] => ("", [])
  | inst :: rest =>
    let r := checkAvailability w n inst
    if r.1.2 = none ∧ r.1.1 = true then (inst, r.2)
    else
      let s := selectInstance w (n + 1) rest
      (s.1, r.2 ++ s.2)

/-- The base URL of the provider, line 95. -/
def baseURL (piholeHost : String) : String :=
  "http://" ++ piholeHost ++ "/admin/api.php"

/-- The format of line 98, applied to its four string arguments. -/
def deleteURL (base ollamaRecord ip apiKey : String) : String :=
  base ++ "?customdns&action=delete&domain=" ++ ollamaRecord ++ "&ip=" ++ ip ++ "&auth=" ++ apiKey

/-- The format of line 114, applied to its four string arguments. -/
def createURL (base ollamaRecord ip apiKey : String) : String :=
  base ++ "?customdns&action=add&domain=" ++ ollamaRecord ++ "&ip=" ++ ip ++ "&auth=" ++ apiKey

/-- Lines 95-132 of `DNSManager.createDNSRecord`: the two provider requests,
once `ip` has been determined. -/
def replaceRecord (w : World) (ip : IP) (piholeHost apiKey ollamaRecord : String) :
    Outcome × List Event :=
  match NewRequest w MethodPost
      (deleteURL (baseURL piholeHost) ollamaRecord (IP.String w ip) apiKey) with
  | RequestResult.fail err => (Outcome.err err, [])
  | RequestResult.ok deleteReq =>
    match w.clientDo 0 deleteReq with
    | HttpResult.fail err =>
      (Outcome.err err,
        [Event.request deleteReq (HttpResult.fail err),
          Event.log Level.error "failed to delete existing DNS record"])
    | HttpResult.resp s₁ b₁ =>
      match NewRequest w MethodPost
          (createURL (baseURL piholeHost) ollamaRecord (IP.String w ip) apiKey) with
      | RequestResult.fail err =>
        (Outcome.err err, [Event.request deleteReq (HttpResult.resp s₁ b₁)])
      | RequestResult.ok createReq =>
        match w.clientDo 1 createReq with
        | HttpResult.fail err =>
          (Outcome.err err,
            [Event.request deleteReq (HttpResult.resp s₁ b₁),
              Event.request createReq (HttpResult.fail err),
              Event.log Level.error "failed to create DNS record"])
        | HttpResult.resp s₂ b₂ =>
          (Outcome.ok,
            [Event.request deleteReq (HttpResult.resp s₁ b₁),
              Event.request createReq (HttpResult.resp s₂ b₂),
              Event.log Level.info "DNS record created successfully"])

/-- The method `DNSManager.createDNSRecord`, `main.go` lines 77-133: how it
ends and the events caused.  Indexing the empty slice in `ips[0]` is a run-time
panic. -/
def createDNSRecord (w : World) (instanceURL piholeHost apiKey ollamaRecord : String) :
    Outcome × List Event :=
  match w.urlParse instanceURL with
  | ParseResult.fail err => (Outcome.err err, [Event.log Level.error "invalid instance URL"])
  | ParseResult.ok parsedURL =>
    let host := parsedURL.Hostname
    match ParseIP w host with
    | some ip => replaceRecord w ip piholeHost apiKey ollamaRecord
    | none =>
      match w.lookupIP host with
      | LookupResult.fail err =>
        (Outcome.err err,
          [Event.lookup host (LookupResult.fail err),
            Event.log Level.error "failed to resolve IP"])
      | LookupResult.addrs [] =>
        (Outcome.panic "runtime error: index out of range [0] with length 0",
          [Event.lookup host (LookupResult.addrs [])])
      | LookupResult.addrs (ip :: ips) =>
        let r := replaceRecord w ip piholeHost apiKey ollamaRecord
        (r.1, Event.lookup host (LookupResult.addrs (ip :: ips)) :: r.2)

/-- The function `main`, lines 134-168, from the loaded settings on
(`loadSettings` never returns an error): how the process ends and the events
caused. -/
def main (w : World) (settings : Settings) : Exit × List Event :=
  let sel := selectInstance w 0 settings.Instances
  let availableInstance := sel.1
  if availableInstance = "" then
    (Exit.fatal "no available instances found",
      sel.2 ++ [Event.log Level.fatal "no available instances found"])
  else
    let r := createDNSRecord w availableInstance settings.Provider.Pihole.Hostname
      settings.Provider.Pihole.APIKey settings.OllamaRecord
    match r.1 with
    | Outcome.err _ =>
      (Exit.fatal "failed to create DNS record",
        sel.2 ++ r.2 ++ [Event.log Level.fatal "failed to create DNS record"])
    | Outcome.panic msg => (Exit.panic msg, sel.2 ++ r.2)
    | Outcome.ok => (Exit.normal, sel.2 ++ r.2 ++ [Event.log Level.info "Exiting"])

/-! ## Specification vocabulary -/

/-- A probe result counts as healthy when it is a response with status 200. -/
def HttpResult.healthy : HttpResult → Bool
  | HttpResult.resp statusCode _ => decide (statusCode = StatusOK)
  | HttpResult.fail _ => false

/-- The address that lines 84-93 of `createDNSRecord` bind to `ip` when they
get past resolution: the literal host, or the first address returned by the
lookup. -/
def resolvedAddress (w : World) (host : String) : Option IP :=
  match ParseIP w host with
  | some ip => some ip
  | none =>
    match w.lookupIP host with
    | LookupResult.addrs (ip :: _) => some ip
    | _ => none

/-! ## Sample environments -/

/-- A sample `url.Parse`, agreeing with Go's on the URLs used below: a space
or a percent sign is rejected, the host of an `http://` URL runs up to the
first `/`, `?` or `#`, and any other text is a relative reference without
host. -/
def sampleURLParse (s : String) : ParseResult :=
  if s.data.any (fun c => c = ' ' ∨ c = '%') then ParseResult.fail "invalid URL"
  else if s.data.take 7 = "http://".data then
    ParseResult.ok ⟨String.mk ((s.data.drop 7).takeWhile (fun c => c ≠ '/' ∧ c ≠ '?' ∧ c ≠ '#'))⟩
  else ParseResult.ok ⟨""⟩

/-- Sample probe results: `a` answers 500, `b` answers 200, nothing else is
reachable. -/
def sampleGet (_ : Nat) (url : String) : HttpResult :=
  if url = "http://a:80" then HttpResult.resp 500 "Internal Server Error"
  else if url = "http://b:80" then HttpResult.resp 200 "Ollama is running"
  else HttpResult.fail "dial tcp: connection refused"

/-- Sample name service: `b` has two addresses, no other name exists. -/
def sampleLookup (host : String) : LookupResult :=
  if host = "b" then LookupResult.addrs [[10, 0, 0, 7], [10, 0, 0, 8]]
  else LookupResult.fail "no such host"

/-- A sample environment around given behaviours of the three network
calls. -/
def sampleWorld (get : Nat → String → HttpResult) (lookup : String → LookupResult)
    (send : Nat → Request → HttpResult) : World where
  clientGet := get
  lookupIP := lookup
  clientDo := send
  urlParse := sampleURLParse
  parseIPv6 := fun _ => none
  ipv6String := fun _ => "::"

/-- The provider answers every request with 200. -/
def worldUp : World :=
  sampleWorld sampleGet sampleLookup (fun _ _ => HttpResult.resp 200 "")

/-- The provider cannot be reached for the first request. -/
def worldDeleteDown : World :=
  sampleWorld sampleGet sampleLookup
    (fun n _ => if n = 0 then HttpResult.fail "connection refused" else HttpResult.resp 200 "")

/-- The provider answers the first request with 403. -/
def worldDeleteRejected : World :=
  sampleWorld sampleGet sampleLookup
    (fun n _ => if n = 0 then HttpResult.resp 403 "Forbidden" else HttpResult.resp 200 "")

/-- The provider cannot be reached for the second request. -/
def worldCreateDown : World :=
  sampleWorld sampleGet sampleLookup
    (fun n _ => if n = 1 then HttpResult.fail "connection reset" else HttpResult.resp 200 "")

/-- The provider answers the second request with 500. -/
def worldCreateRejected : World :=
  sampleWorld sampleGet sampleLookup
    (fun n _ => if n = 1 then HttpResult.resp 500 "Internal Server Error"
      else HttpResult.resp 200 "")

/-- The name service answers every lookup with no address and no error. -/
def worldEmptyLookup : World :=
  sampleWorld sampleGet (fun _ => LookupResult.addrs []) (fun _ _ => HttpResult.resp 200 "")

/-- Sample settings: two instances, of which the second is healthy. -/
def sampleSettings : Settings :=
  ⟨["http://a:80", "http://b:80"], ⟨⟨"pi.hole", "KEY"⟩⟩, "ollama.lan"⟩

/-! # Theorems -/

/-! ## Trace lemmas -/

theorem probesOf_append (s t : List Event) : probesOf (s ++ t) = probesOf s ++ probesOf t := by
  induction s with
  | nil => rfl
  | cons e s ih => cases e <;> simp [probesOf, ih]

/-- The provider requests of a concatenated trace. -/
theorem requestsOf_append (s t : List Event) :
    requestsOf (s ++ t) = requestsOf s ++ requestsOf t := by
  induction s with
  | nil => rfl
  | cons e s ih => cases e <;> simp [requestsOf, ih]

/-- The lookups of a concatenated trace. -/
theorem lookupsOf_append (s t : List Event) :
    lookupsOf (s ++ t) = lookupsOf s ++ lookupsOf t := by
  induction s with
  | nil => rfl
  | cons e s ih => cases e <;> simp [lookupsOf, ih]

/-! ## The health probe -/

theorem checkAvailability_healthy (w : World) (n : Nat) (url : String)
    (h : (w.clientGet n url).healthy = true) :
    (checkAvailability w n url).1 = (true, none) := by
  unfold checkAvailability
  cases hr : w.clientGet n url with
  | fail err => simp [hr, HttpResult.healthy] at h
  | resp s b =>
    have hs : s = StatusOK := by simpa [hr, HttpResult.healthy] using h
    simp [hs]

/-- An unhealthy probe result makes `checkAvailability` return `false`. -/
theorem checkAvailability_unhealthy (w : World) (n : Nat) (url : String)
    (h : (w.clientGet n url).healthy = false) :
    (checkAvailability w n url).1.1 = false := by
  unfold checkAvailability
  cases hr : w.clientGet n url with
  | fail err => simp
  | resp s b =>
    have hs : s ≠ StatusOK := by simpa [hr, HttpResult.healthy] using h
    simp [hs]

/-- One call of `checkAvailability` issues exactly one probe, to its argument. -/
theorem checkAvailability_probes (w : World) (n : Nat) (url : String) :
    probesOf (checkAvailability w n url).2 = [url] := by
  unfold checkAvailability
  cases w.clientGet n url with
  | fail err => simp [probesOf]
  | resp s b => by_cases hs : s = StatusOK <;> simp [hs, probesOf]

/-- A probe issues no provider request and no lookup. -/
theorem checkAvailability_requests (w : World) (n : Nat) (url : String) :
    requestsOf (checkAvailability w n url).2 = [] ∧
      lookupsOf (checkAvailability w n url).2 = [] := by
  unfold checkAvailability
  cases w.clientGet n url with
  | fail err => simp [requestsOf, lookupsOf]
  | resp s b => by_cases hs : s = StatusOK <;> simp [hs, requestsOf, lookupsOf]

/-! ## The selection loop -/

theorem selectInstance_requests (w : World) (l : List String) (n : Nat) :
    requestsOf (selectInstance w n l).2 = [] ∧ lookupsOf (selectInstance w n l).2 = [] := by
  induction l generalizing n with
  | nil => simp [selectInstance, requestsOf, lookupsOf]
  | cons x l ih =>
    have hc := checkAvailability_requests w n x
    unfold selectInstance
    by_cases h : (checkAvailability w n x).1.2 = none ∧ (checkAvailability w n x).1.1 = true
    · simp only [h, and_self, if_true]
      exact hc
    · simp only [h, if_false, requestsOf_append, lookupsOf_append, hc, ih (n + 1)]
      simp

/-- The selection loop started at probe number `n`: unhealthy endpoints are skipped, the first healthy one is selected and nothing after it is probed. -/
theorem selectInstance_skip (w : World) (pre : List String) (x : String) (post : List String)
    (n : Nat)
    (hpre : ∀ i (hi : i < pre.length), (w.clientGet (n + i) (pre.get ⟨i, hi⟩)).healthy = false)
    (hx : (w.clientGet (n + pre.length) x).healthy = true) :
    (selectInstance w n (pre ++ x :: post)).1 = x ∧
      probesOf (selectInstance w n (pre ++ x :: post)).2 = pre ++ [x] := by
  induction pre generalizing n with
  | nil =>
    have h := checkAvailability_healthy w n x (by simpa using hx)
    simp [selectInstance, h, checkAvailability_probes]
  | cons y pre ih =>
    have hy := checkAvailability_unhealthy w n y (by simpa using hpre 0 (by simp))
    have hrec := ih (n + 1)
      (fun i hi => by
        have := hpre (i + 1) (by simpa using hi)
        simpa [Nat.add_assoc, Nat.add_comm 1 i] using this)
      (by simpa [Nat.add_assoc, Nat.add_comm 1] using hx)
    simp [selectInstance, hy, hrec, probesOf_append, checkAvailability_probes]

/-- The selection loop over endpoints that are all unhealthy probes each of them and selects nothing. -/
theorem selectInstance_none (w : World) (l : List String) (n : Nat)
    (hl : ∀ i (hi : i < l.length), (w.clientGet (n + i) (l.get ⟨i, hi⟩)).healthy = false) :
    (selectInstance w n l).1 = "" ∧ probesOf (selectInstance w n l).2 = l := by
  induction l generalizing n with
  | nil => simp [selectInstance, probesOf]
  | cons y l ih =>
    have hy := checkAvailability_unhealthy w n y (by simpa using hl 0 (by simp))
    have hrec := ih (n + 1)
      (fun i hi => by
        have := hl (i + 1) (by simpa using hi)
        simpa [Nat.add_assoc, Nat.add_comm 1 i] using this)
    simp [selectInstance, hy, hrec, probesOf_append, checkAvailability_probes]

/-- The log lines of a concatenated trace. -/
theorem logsOf_append (s t : List Event) : logsOf (s ++ t) = logsOf s ++ logsOf t := by
  induction s with
  | nil => rfl
  | cons e s ih => cases e <;> simp [logsOf, ih]

/-- Once the endpoint is parsed and its address resolved, `createDNSRecord` is `replaceRecord` on that address, preceded by events that are neither requests nor log lines. -/
theorem createDNSRecord_resolved (w : World) (instanceURL piholeHost apiKey ollamaRecord : String)
    (u : URL) (ip : IP) (hparse : w.urlParse instanceURL = ParseResult.ok u)
    (hres : resolvedAddress w u.Hostname = some ip) :
    ∃ pre, createDNSRecord w instanceURL piholeHost apiKey ollamaRecord
        = ((replaceRecord w ip piholeHost apiKey ollamaRecord).1,
            pre ++ (replaceRecord w ip piholeHost apiKey ollamaRecord).2) ∧
      requestsOf pre = [] ∧ logsOf pre = [] := by
  unfold resolvedAddress at hres
  unfold createDNSRecord
  rw [hparse]
  cases hp : ParseIP w u.Hostname with
  | some ip' =>
    rw [hp] at hres
    simp only [Option.some.injEq] at hres
    subst hres
    exact ⟨[], by simp [hp], rfl, rfl⟩
  | none =>
    rw [hp] at hres
    cases hl : w.lookupIP u.Hostname with
    | fail e => simp [hl] at hres
    | addrs ips =>
      cases ips with
      | nil => simp [hl] at hres
      | cons ip' rest =>
        simp only [hl, Option.some.injEq] at hres
        subst hres
        exact ⟨[Event.lookup u.Hostname (LookupResult.addrs (ip' :: rest))],
          by simp [hp, hl], rfl, rfl⟩

/-- The run of `replaceRecord` when the delete request fails at the transport level. -/
theorem replaceRecord_delete_fail (w : World) (ip : IP) (piholeHost apiKey ollamaRecord : String)
    (u₁ : URL) (e : GoError)
    (hnew : w.urlParse (deleteURL (baseURL piholeHost) ollamaRecord (IP.String w ip) apiKey)
      = ParseResult.ok u₁)
    (hdel : w.clientDo 0
      ⟨MethodPost, deleteURL (baseURL piholeHost) ollamaRecord (IP.String w ip) apiKey,
        ⟨removeEmptyPort u₁.Host⟩⟩
      = HttpResult.fail e) :
    replaceRecord w ip piholeHost apiKey ollamaRecord
      = (Outcome.err e,
          [Event.request
              ⟨MethodPost, deleteURL (baseURL piholeHost) ollamaRecord (IP.String w ip) apiKey,
                ⟨removeEmptyPort u₁.Host⟩⟩
              (HttpResult.fail e),
            Event.log Level.error "failed to delete existing DNS record"]) := by
  simp [replaceRecord, NewRequest, hnew, hdel]

/-- The run of `replaceRecord` when the create request fails at the transport level. -/
theorem replaceRecord_create_fail (w : World) (ip : IP) (piholeHost apiKey ollamaRecord : String)
    (u₁ u₂ : URL) (s₁ : Int) (b₁ : String) (e : GoError)
    (hnew₁ : w.urlParse (deleteURL (baseURL piholeHost) ollamaRecord (IP.String w ip) apiKey)
      = ParseResult.ok u₁)
    (hdel : w.clientDo 0
      ⟨MethodPost, deleteURL (baseURL piholeHost) ollamaRecord (IP.String w ip) apiKey,
        ⟨removeEmptyPort u₁.Host⟩⟩
      = HttpResult.resp s₁ b₁)
    (hnew₂ : w.urlParse (createURL (baseURL piholeHost) ollamaRecord (IP.String w ip) apiKey)
      = ParseResult.ok u₂)
    (hadd : w.clientDo 1
      ⟨MethodPost, createURL (baseURL piholeHost) ollamaRecord (IP.String w ip) apiKey,
        ⟨removeEmptyPort u₂.Host⟩⟩
      = HttpResult.fail e) :
    replaceRecord w ip piholeHost apiKey ollamaRecord
      = (Outcome.err e,
          [Event.request
              ⟨MethodPost, deleteURL (baseURL piholeHost) ollamaRecord (IP.String w ip) apiKey,
                ⟨removeEmptyPort u₁.Host⟩⟩
              (HttpResult.resp s₁ b₁),
            Event.request
              ⟨MethodPost, createURL (baseURL piholeHost) ollamaRecord (IP.String w ip) apiKey,
                ⟨removeEmptyPort u₂.Host⟩⟩
              (HttpResult.fail e),
            Event.log Level.error "failed to create DNS record"]) := by
  simp [replaceRecord, NewRequest, hnew₁, hdel, hnew₂, hadd]

/-- The run of `replaceRecord` when both requests are answered. -/
theorem replaceRecord_create_resp (w : World) (ip : IP) (piholeHost apiKey ollamaRecord : String)
    (u₁ u₂ : URL) (s₁ s₂ : Int) (b₁ b₂ : String)
    (hnew₁ : w.urlParse (deleteURL (baseURL piholeHost) ollamaRecord (IP.String w ip) apiKey)
      = ParseResult.ok u₁)
    (hdel : w.clientDo 0
      ⟨MethodPost, deleteURL (baseURL piholeHost) ollamaRecord (IP.String w ip) apiKey,
        ⟨removeEmptyPort u₁.Host⟩⟩
      = HttpResult.resp s₁ b₁)
    (hnew₂ : w.urlParse (createURL (baseURL piholeHost) ollamaRecord (IP.String w ip) apiKey)
      = ParseResult.ok u₂)
    (hadd : w.clientDo 1
      ⟨MethodPost, createURL (baseURL piholeHost) ollamaRecord (IP.String w ip) apiKey,
        ⟨removeEmptyPort u₂.Host⟩⟩
      = HttpResult.resp s₂ b₂) :
    replaceRecord w ip piholeHost apiKey ollamaRecord
      = (Outcome.ok,
          [Event.request
              ⟨MethodPost, deleteURL (baseURL piholeHost) ollamaRecord (IP.String w ip) apiKey,
                ⟨removeEmptyPort u₁.Host⟩⟩
              (HttpResult.resp s₁ b₁),
            Event.request
              ⟨MethodPost, createURL (baseURL piholeHost) ollamaRecord (IP.String w ip) apiKey,
                ⟨removeEmptyPort u₂.Host⟩⟩
              (HttpResult.resp s₂ b₂),
            Event.log Level.info "DNS record created successfully"]) := by
  simp [replaceRecord, NewRequest, hnew₁, hdel, hnew₂, hadd]

/-- Whatever the second request's fate, once the delete request has been
answered and the create request can be built, both requests are issued. -/
theorem replaceRecord_delete_resp (w : World) (ip : IP) (piholeHost apiKey ollamaRecord : String)
    (u₁ u₂ : URL) (s₁ : Int) (b₁ : String)
    (hnew₁ : w.urlParse (deleteURL (baseURL piholeHost) ollamaRecord (IP.String w ip) apiKey)
      = ParseResult.ok u₁)
    (hdel : w.clientDo 0
      ⟨MethodPost, deleteURL (baseURL piholeHost) ollamaRecord (IP.String w ip) apiKey,
        ⟨removeEmptyPort u₁.Host⟩⟩
      = HttpResult.resp s₁ b₁)
    (hnew₂ : w.urlParse (createURL (baseURL piholeHost) ollamaRecord (IP.String w ip) apiKey)
      = ParseResult.ok u₂) :
    requestsOf (replaceRecord w ip piholeHost apiKey ollamaRecord).2
      = [⟨MethodPost, deleteURL (baseURL piholeHost) ollamaRecord (IP.String w ip) apiKey,
        ⟨removeEmptyPort u₁.Host⟩⟩,
          ⟨MethodPost, createURL (baseURL piholeHost) ollamaRecord (IP.String w ip) apiKey,
            ⟨removeEmptyPort u₂.Host⟩⟩] := by
  cases hadd : w.clientDo 1
      ⟨MethodPost, createURL (baseURL piholeHost) ollamaRecord (IP.String w ip) apiKey,
        ⟨removeEmptyPort u₂.Host⟩⟩ with
  | fail e =>
    rw [replaceRecord_create_fail w ip piholeHost apiKey ollamaRecord u₁ u₂ s₁ b₁ e
      hnew₁ hdel hnew₂ hadd]
    rfl
  | resp s₂ b₂ =>
    rw [replaceRecord_create_resp w ip piholeHost apiKey ollamaRecord u₁ u₂ s₁ s₂ b₁ b₂
      hnew₁ hdel hnew₂ hadd]
    rfl

/-! ## IPv4 literals -/

theorem digits_spec (k : Nat) (hk : k < 10) :
    (digits.getD k '0').isDigit = true ∧ (digits.getD k '0').toNat - 48 = k ∧
      digits.getD k '0' ≠ '.' ∧ digits.getD k '0' ≠ ':' ∧ digits.getD k '0' ≠ '%' ∧
      digits.getD k '0' ≠ '[' := by
  interval_cases k <;> decide

/-- One step of the IPv4 loop on a digit that neither follows a leading zero nor overflows the octet. -/
theorem parseIPv4Loop_digit (k : Nat) (hk : k < 10) (rest : List Char) (prev : Option Char)
    (fields : List Nat) (val digLen : Nat) (hz : ¬ (digLen = 1 ∧ val = 0))
    (hv : val * 10 + k ≤ 255) :
    parseIPv4Loop (digits.getD k '0' :: rest) prev fields val digLen
      = parseIPv4Loop rest (some (digits.getD k '0')) fields (val * 10 + k) (digLen + 1) := by
  obtain ⟨h1, h2, -⟩ := digits_spec k hk
  rw [parseIPv4Loop]
  simp only [h1, if_true, h2, hz, if_false]
  rw [if_neg (by omega)]

/-- One step of the IPv4 loop on a dot that follows a digit, is not last and ends one of the first three octets. -/
theorem parseIPv4Loop_dot (ch : Char) (hch : ch ≠ '.') (rest : List Char) (hrest : rest ≠ [])
    (fields : List Nat) (hf : fields.length ≠ 3) (val digLen : Nat) :
    parseIPv4Loop ('.' :: rest) (some ch) fields val digLen
      = parseIPv4Loop rest (some '.') (fields ++ [val]) 0 0 := by
  rw [parseIPv4Loop]
  have h1 : ('.' : Char).isDigit = false := by decide
  simp [h1, hrest, hf, hch]

/-- The decimal text of an octet is appended to the buffer. -/
theorem appendDecimal_eq (b : List Char) (x : Nat) :
    appendDecimal b x = b ++ appendDecimal [] x := by
  unfold appendDecimal
  by_cases h100 : x ≥ 100 <;> by_cases h10 : x ≥ 10 <;> simp [h100, h10]

/-- The decimal text of an octet is not empty. -/
theorem appendDecimal_ne_nil (x : Nat) : appendDecimal [] x ≠ [] := by
  unfold appendDecimal
  simp

/-- The IPv4 loop reads the decimal text of an octet back as that octet. -/
theorem parseIPv4Loop_octet (x : Nat) (hx : x < 256) :
    ∃ ch k, ch ≠ '.' ∧ ∀ rest prev fields,
      parseIPv4Loop (appendDecimal [] x ++ rest) prev fields 0 0
        = parseIPv4Loop rest (some ch) fields x k := by
  by_cases h100 : x ≥ 100
  · refine ⟨digits.getD (x % 10) '0', 3, (digits_spec _ (Nat.mod_lt _ (by decide))).2.2.1, ?_⟩
    intro rest prev fields
    have h10 : x ≥ 10 := by omega
    have e : appendDecimal [] x ++ rest
        = digits.getD (x / 100) '0' :: digits.getD (x / 10 % 10) '0'
            :: digits.getD (x % 10) '0' :: rest := by
      simp [appendDecimal, h100, h10]
    rw [e, parseIPv4Loop_digit (x / 100) (by omega) _ _ _ _ _ (by omega) (by omega),
      parseIPv4Loop_digit (x / 10 % 10) (by omega) _ _ _ _ _ (by omega) (by omega),
      parseIPv4Loop_digit (x % 10) (by omega) _ _ _ _ _ (by omega) (by omega)]
    congr 1
    omega
  · by_cases h10 : x ≥ 10
    · refine ⟨digits.getD (x % 10) '0', 2, (digits_spec _ (Nat.mod_lt _ (by decide))).2.2.1, ?_⟩
      intro rest prev fields
      have e : appendDecimal [] x ++ rest
          = digits.getD (x / 10 % 10) '0' :: digits.getD (x % 10) '0' :: rest := by
        simp [appendDecimal, h100, h10]
      rw [e, parseIPv4Loop_digit (x / 10 % 10) (by omega) _ _ _ _ _ (by omega) (by omega),
        parseIPv4Loop_digit (x % 10) (by omega) _ _ _ _ _ (by omega) (by omega)]
      congr 1
      omega
    · refine ⟨digits.getD (x % 10) '0', 1, (digits_spec _ (Nat.mod_lt _ (by decide))).2.2.1, ?_⟩
      intro rest prev fields
      have e : appendDecimal [] x ++ rest = digits.getD (x % 10) '0' :: rest := by
        simp [appendDecimal, h100, h10]
      rw [e, parseIPv4Loop_digit (x % 10) (by omega) _ _ _ _ _ (by omega) (by omega)]
      congr 1
      omega

/-- The characters of a dotted-decimal address. -/
theorem string4_data (a b c d : Nat) :
    (string4 a b c d).data
      = appendDecimal [] a ++ '.' :: (appendDecimal [] b ++ '.' :: (appendDecimal [] c
          ++ '.' :: (appendDecimal [] d ++ []))) := by
  unfold string4
  simp only []
  rw [appendDecimal_eq (_ ++ ['.']) d, appendDecimal_eq (_ ++ ['.']) c,
    appendDecimal_eq (_ ++ ['.']) b]
  simp

/-- Parsing the dotted-decimal text of four octets gives the four octets. -/
theorem parseIPv4_string4 (a b c d : Nat) (ha : a < 256) (hb : b < 256) (hc : c < 256)
    (hd : d < 256) : parseIPv4 (string4 a b c d) = some [a, b, c, d] := by
  obtain ⟨cha, ka, hcha, hA⟩ := parseIPv4Loop_octet a ha
  obtain ⟨chb, kb, hchb, hB⟩ := parseIPv4Loop_octet b hb
  obtain ⟨chc, kc, hchc, hC⟩ := parseIPv4Loop_octet c hc
  obtain ⟨chd, kd, hchd, hD⟩ := parseIPv4Loop_octet d hd
  unfold parseIPv4
  rw [string4_data, hA, parseIPv4Loop_dot cha hcha _ (by simp [appendDecimal_ne_nil]) _ (by simp),
    hB, parseIPv4Loop_dot chb hchb _ (by simp [appendDecimal_ne_nil]) _ (by simp),
    hC, parseIPv4Loop_dot chc hchc _ (by simp [appendDecimal_ne_nil]) _ (by simp),
    hD]
  simp [parseIPv4Loop]

/-- No entry of `digits` is a separator. -/
theorem digits_getD_ne (k : Nat) :
    digits.getD k '0' ≠ '.' ∧ digits.getD k '0' ≠ ':' ∧ digits.getD k '0' ≠ '%' ∧
      digits.getD k '0' ≠ '[' := by
  by_cases hk : k < 10
  · exact (digits_spec k hk).2.2
  · have : digits.getD k '0' = '0' := List.getD_eq_default _ _ (by simpa [digits] using hk)
    rw [this]
    decide

/-- The decimal text of an octet contains no separator. -/
theorem appendDecimal_chars (x : Nat) (c : Char) (hc : c ∈ appendDecimal [] x) :
    c ≠ '.' ∧ c ≠ ':' ∧ c ≠ '%' ∧ c ≠ '[' := by
  by_cases h100 : x ≥ 100
  · have e : appendDecimal [] x
        = [digits.getD (x / 100) '0', digits.getD (x / 10 % 10) '0', digits.getD (x % 10) '0'] := by
      have h10 : x ≥ 10 := by omega
      simp [appendDecimal, h100, h10]
    rw [e] at hc
    simp only [List.mem_cons, List.mem_singleton, List.not_mem_nil, or_false] at hc
    rcases hc with h | h | h <;> rw [h] <;> exact digits_getD_ne _
  · by_cases h10 : x ≥ 10
    · have e : appendDecimal [] x
          = [digits.getD (x / 10 % 10) '0', digits.getD (x % 10) '0'] := by
        simp [appendDecimal, h100, h10]
      rw [e] at hc
      simp only [List.mem_cons, List.mem_singleton, List.not_mem_nil, or_false] at hc
      rcases hc with h | h <;> rw [h] <;> exact digits_getD_ne _
    · have e : appendDecimal [] x = [digits.getD (x % 10) '0'] := by
        simp [appendDecimal, h100, h10]
      rw [e] at hc
      simp only [List.mem_cons, List.mem_singleton, List.not_mem_nil, or_false] at hc
      rw [hc]
      exact digits_getD_ne _

/-- The first element satisfying a predicate, past a run of elements that do not. -/
theorem find?_skip (p : Char → Bool) (l : List Char) (x : Char) (r : List Char)
    (hl : ∀ c ∈ l, p c = false) (hx : p x = true) : (l ++ x :: r).find? p = some x := by
  induction l with
  | nil => simp [hx]
  | cons y l ih =>
    have hy : p y = false := hl y (by simp)
    simp only [List.cons_append, List.find?_cons, hy]
    exact ih (fun c hc => hl c (by simp [hc]))

/-- Go parses the dotted-decimal text of four octets as their IPv4-mapped address. -/
theorem ParseIP_string4 (w : World) (a b c d : Nat) (ha : a < 256) (hb : b < 256) (hc : c < 256)
    (hd : d < 256) : ParseIP w (string4 a b c d) = some (as16 [a, b, c, d]) := by
  unfold ParseIP
  have hfind : (string4 a b c d).data.find? (fun c => c = '.' ∨ c = ':' ∨ c = '%') = some '.' := by
    rw [string4_data]
    apply find?_skip
    · intro ch hch
      obtain ⟨h1, h2, h3, -⟩ := appendDecimal_chars a ch hch
      simp [h1, h2, h3]
    · simp
  rw [hfind]
  simp [parseIPv4_string4 a b c d ha hb hc hd]

/-- The text of an IPv4-mapped address is dotted decimal. -/
theorem String_as16 (w : World) (a b c d : Nat) :
    IP.String w (as16 [a, b, c, d]) = string4 a b c d := by
  simp [IP.String, as16, To4]

/-- A dotted-decimal address contains neither a colon nor an opening bracket. -/
theorem string4_chars (a b c d : Nat) (ch : Char) (hch : ch ∈ (string4 a b c d).data) :
    ch ≠ ':' ∧ ch ≠ '[' := by
  rw [string4_data] at hch
  simp only [List.mem_append, List.mem_cons, List.not_mem_nil, or_false] at hch
  have hdot : ('.' : Char) ≠ ':' ∧ ('.' : Char) ≠ '[' := by decide
  rcases hch with h | h | h | h | h | h | h
  · exact ⟨(appendDecimal_chars a ch h).2.1, (appendDecimal_chars a ch h).2.2.2⟩
  · rw [h]; exact hdot
  · exact ⟨(appendDecimal_chars b ch h).2.1, (appendDecimal_chars b ch h).2.2.2⟩
  · rw [h]; exact hdot
  · exact ⟨(appendDecimal_chars c ch h).2.1, (appendDecimal_chars c ch h).2.2.2⟩
  · rw [h]; exact hdot
  · exact ⟨(appendDecimal_chars d ch h).2.1, (appendDecimal_chars d ch h).2.2.2⟩

/-! ## Stripping the port -/

theorem lastIndexByte_none (l : List Char) (c : Char) (h : ∀ x ∈ l, x ≠ c) :
    lastIndexByte l c = none := by
  induction l with
  | nil => rfl
  | cons y l ih =>
    have hy : y ≠ c := h y (by simp)
    simp [lastIndexByte, ih (fun x hx => h x (by simp [hx])), hy]

/-- The last index of a byte of the second part of a concatenation. -/
theorem lastIndexByte_append (l r : List Char) (c : Char) (i : Nat)
    (h : lastIndexByte r c = some i) : lastIndexByte (l ++ r) c = some (l.length + i) := by
  induction l with
  | nil => simpa using h
  | cons y l ih =>
    have e : lastIndexByte (y :: (l ++ r)) c = some (l.length + i + 1) := by
      rw [lastIndexByte, ih]
    rw [List.cons_append, e, List.length_cons]
    congr 1
    omega

/-- Cutting the optional port off a host without colons or brackets gives the host. -/
theorem splitHostPort_literal (lit port : List Char) (hcolon : ∀ x ∈ lit, x ≠ ':')
    (hbr : lit.head? ≠ some '[') (hport : validOptionalPort port = true) :
    splitHostPort (lit ++ port) = lit := by
  unfold splitHostPort
  cases port with
  | nil =>
    simp only [List.append_nil, lastIndexByte_none lit ':' hcolon]
    simp [hbr]
  | cons p ds =>
    simp only [validOptionalPort, Bool.and_eq_true, beq_iff_eq, List.all_eq_true] at hport
    obtain ⟨hp, hds⟩ := hport
    subst hp
    have hnone : lastIndexByte ds ':' = none :=
      lastIndexByte_none ds ':' (fun x hx hxc => by
        have := hds x hx
        rw [hxc] at this
        exact absurd this (by decide))
    have hlast : lastIndexByte (lit ++ ':' :: ds) ':' = some (lit.length + 0) :=
      lastIndexByte_append lit (':' :: ds) ':' 0 (by simp [lastIndexByte, hnone])
    have hvalid : validOptionalPort (':' :: ds) = true := by
      simp only [validOptionalPort, Bool.and_eq_true, beq_iff_eq, List.all_eq_true]
      exact ⟨trivial, hds⟩
    simp only [hlast, Nat.add_zero, List.drop_left, hvalid, if_true, List.take_left]
    simp [hbr]

/-- The host name of a dotted-decimal address with optional port is the address. -/
theorem Hostname_literal (u : URL) (a b c d : Nat) (port : String)
    (hport : validOptionalPort port.data = true) (hhost : u.Host = string4 a b c d ++ port) :
    u.Hostname = string4 a b c d := by
  unfold URL.Hostname
  rw [hhost, String.data_append, splitHostPort_literal _ _
    (fun x hx => (string4_chars a b c d x hx).1)
    (fun hh => (string4_chars a b c d '[' (List.mem_of_mem_head? hh)).2 rfl) hport]


/-- On the same base the delete URL and the create URL differ, whatever their other arguments. -/
theorem deleteURL_ne_createURL (base r i k base' r' i' k' : String) (hb : base = base') :
    deleteURL base r i k ≠ createURL base' r' i' k' := by
  subst hb
  intro h
  have := congrArg String.data h
  simp [deleteURL, createURL, String.data_append] at this

/-- The delete URL, cut around its action value. -/
theorem deleteURL_shape (piholeHost r i k : String) :
    deleteURL (baseURL piholeHost) r i k
      = ("http://" ++ piholeHost ++ "/admin/api.php?customdns&action=") ++ "delete"
          ++ ("&domain=" ++ r ++ "&ip=" ++ i ++ "&auth=" ++ k) := by
  have e : deleteURL (baseURL piholeHost) r i k
      = "http://" ++ piholeHost ++ ("/admin/api.php" ++ "?customdns&action=delete&domain=")
          ++ r ++ "&ip=" ++ i ++ "&auth=" ++ k := by
    simp only [deleteURL, baseURL, String.append_assoc]
  have e2 : "/admin/api.php" ++ "?customdns&action=delete&domain="
      = "/admin/api.php?customdns&action=" ++ ("delete" ++ "&domain=") := by decide
  rw [e, e2]
  simp only [String.append_assoc]

/-- The create URL, cut around its action value. -/
theorem createURL_shape (piholeHost r i k : String) :
    createURL (baseURL piholeHost) r i k
      = ("http://" ++ piholeHost ++ "/admin/api.php?customdns&action=") ++ "add"
          ++ ("&domain=" ++ r ++ "&ip=" ++ i ++ "&auth=" ++ k) := by
  have e : createURL (baseURL piholeHost) r i k
      = "http://" ++ piholeHost ++ ("/admin/api.php" ++ "?customdns&action=add&domain=")
          ++ r ++ "&ip=" ++ i ++ "&auth=" ++ k := by
    simp only [createURL, baseURL, String.append_assoc]
  have e2 : "/admin/api.php" ++ "?customdns&action=add&domain="
      = "/admin/api.php?customdns&action=" ++ ("add" ++ "&domain=") := by decide
  rw [e, e2]
  simp only [String.append_assoc]

/-- A resolved address is the parsed literal host or the first address of a successful lookup. -/
theorem resolvedAddress_spec (w : World) (host : String) (ip : IP)
    (h : resolvedAddress w host = some ip) :
    ParseIP w host = some ip ∨
      (ParseIP w host = none ∧ ∃ rest, w.lookupIP host = LookupResult.addrs (ip :: rest)) := by
  unfold resolvedAddress at h
  cases hp : ParseIP w host with
  | some ip' =>
    rw [hp] at h
    exact Or.inl h
  | none =>
    rw [hp] at h
    cases hl : w.lookupIP host with
    | fail e => simp [hl] at h
    | addrs ips =>
      cases ips with
      | nil => simp [hl] at h
      | cons ip' rest =>
        simp only [hl, Option.some.injEq] at h
        subst h
        exact Or.inr ⟨rfl, rest, rfl⟩

/-- Whatever happens, the method and URL text of the requests of `replaceRecord`
are an initial part of delete-then-create, no lookup is made, and a `nil`
return means both were issued. -/
theorem replaceRecord_requests (w : World) (ip : IP) (piholeHost apiKey ollamaRecord : String) :
    requestTextsOf (replaceRecord w ip piholeHost apiKey ollamaRecord).2
        <+: [(MethodPost, deleteURL (baseURL piholeHost) ollamaRecord (IP.String w ip) apiKey),
          (MethodPost, createURL (baseURL piholeHost) ollamaRecord (IP.String w ip) apiKey)] ∧
      lookupsOf (replaceRecord w ip piholeHost apiKey ollamaRecord).2 = [] ∧
      ((replaceRecord w ip piholeHost apiKey ollamaRecord).1 = Outcome.ok →
        requestTextsOf (replaceRecord w ip piholeHost apiKey ollamaRecord).2
          = [(MethodPost, deleteURL (baseURL piholeHost) ollamaRecord (IP.String w ip) apiKey),
            (MethodPost, createURL (baseURL piholeHost) ollamaRecord (IP.String w ip) apiKey)]) := by
  cases h₁ : w.urlParse (deleteURL (baseURL piholeHost) ollamaRecord (IP.String w ip) apiKey) with
  | fail e =>
    have e₀ : replaceRecord w ip piholeHost apiKey ollamaRecord = (Outcome.err e, []) := by
      simp [replaceRecord, NewRequest, h₁]
    rw [e₀]
    exact ⟨⟨_, rfl⟩, rfl, fun h => by cases h⟩
  | ok u₁ =>
    cases h₂ : w.clientDo 0
        ⟨MethodPost, deleteURL (baseURL piholeHost) ollamaRecord (IP.String w ip) apiKey,
          ⟨removeEmptyPort u₁.Host⟩⟩ with
    | fail e =>
      rw [replaceRecord_delete_fail w ip piholeHost apiKey ollamaRecord u₁ e h₁ h₂]
      exact ⟨⟨[_], rfl⟩, rfl, fun h => by cases h⟩
    | resp s₁ b₁ =>
      cases h₃ : w.urlParse
          (createURL (baseURL piholeHost) ollamaRecord (IP.String w ip) apiKey) with
      | fail e =>
        have e₀ : replaceRecord w ip piholeHost apiKey ollamaRecord
            = (Outcome.err e,
                [Event.request
                  ⟨MethodPost,
                    deleteURL (baseURL piholeHost) ollamaRecord (IP.String w ip) apiKey,
                    ⟨removeEmptyPort u₁.Host⟩⟩
                  (HttpResult.resp s₁ b₁)]) := by
          simp [replaceRecord, NewRequest, h₁, h₂, h₃]
        rw [e₀]
        exact ⟨⟨[_], rfl⟩, rfl, fun h => by cases h⟩
      | ok u₂ =>
        cases h₄ : w.clientDo 1
            ⟨MethodPost, createURL (baseURL piholeHost) ollamaRecord (IP.String w ip) apiKey,
              ⟨removeEmptyPort u₂.Host⟩⟩ with
        | fail e =>
          rw [replaceRecord_create_fail w ip piholeHost apiKey ollamaRecord u₁ u₂ s₁ b₁ e
            h₁ h₂ h₃ h₄]
          exact ⟨⟨[], rfl⟩, rfl, fun _ => rfl⟩
        | resp s₂ b₂ =>
          rw [replaceRecord_create_resp w ip piholeHost apiKey ollamaRecord u₁ u₂ s₁ s₂ b₁ b₂
            h₁ h₂ h₃ h₄]
          exact ⟨⟨[], rfl⟩, rfl, fun _ => rfl⟩

/-- When an instance is selected and `createDNSRecord` returns an error, `main` ends on its second fatal path. -/
theorem main_of_err (w : World) (settings : Settings) (e : GoError) (t : List Event)
    (hsel : (selectInstance w 0 settings.Instances).1 ≠ "")
    (hrun : createDNSRecord w (selectInstance w 0 settings.Instances).1
      settings.Provider.Pihole.Hostname settings.Provider.Pihole.APIKey settings.OllamaRecord
      = (Outcome.err e, t)) :
    main w settings = (Exit.fatal "failed to create DNS record",
      (selectInstance w 0 settings.Instances).2 ++ t
        ++ [Event.log Level.fatal "failed to create DNS record"]) := by
  unfold main
  simp only [hsel, if_false, hrun]

/-- The decimal text of an octet is its usual decimal numeral. -/
theorem appendDecimal_toString (x : Nat) (hx : x < 256) :
    String.mk (appendDecimal [] x) = toString x := by
  interval_cases x <;> decide

/-- A dotted-decimal address is the decimal numerals of its octets separated by dots. -/
theorem string4_toString (a b c d : Nat) (ha : a < 256) (hb : b < 256) (hc : c < 256)
    (hd : d < 256) :
    string4 a b c d = toString a ++ "." ++ toString b ++ "." ++ toString c ++ "." ++ toString d := by
  rw [← appendDecimal_toString a ha, ← appendDecimal_toString b hb,
    ← appendDecimal_toString c hc, ← appendDecimal_toString d hd]
  apply String.ext
  rw [string4_data]
  simp [String.data_append]

/-- The text of a 4-byte address is dotted decimal. -/
theorem String_v4 (w : World) (a b c d : Nat) :
    IP.String w [a, b, c, d] = string4 a b c d := by
  simp [IP.String, To4]

/-- The text of a 16-byte address that is not IPv4-mapped is left to the IPv6 printer. -/
theorem String_v6 (w : World) (ip : IP) (hlen : ip.length = 16) (h4 : To4 ip = []) :
    IP.String w ip = w.ipv6String ip := by
  simp [IP.String, hlen, h4]

/-- A last index lies within the list. -/
theorem lastIndexByte_lt (l : List Char) (c : Char) (i : Nat) (h : lastIndexByte l c = some i) :
    i < l.length := by
  induction l generalizing i with
  | nil => simp [lastIndexByte] at h
  | cons y l ih =>
    rw [lastIndexByte] at h
    cases hl : lastIndexByte l c with
    | some j =>
      rw [hl] at h
      simp only [Option.some.injEq] at h
      have := ih j hl
      simp only [List.length_cons]
      omega
    | none =>
      rw [hl] at h
      by_cases hy : y = c
      · simp only [hy, if_true, Option.some.injEq] at h
        simp only [List.length_cons]
        omega
      · simp [hy] at h

/-- Appending another byte does not move the last index. -/
theorem lastIndexByte_snoc (l : List Char) (x c : Char) (hx : x ≠ c) :
    lastIndexByte (l ++ [x]) c = lastIndexByte l c := by
  induction l with
  | nil => simp [lastIndexByte, hx]
  | cons y l ih =>
    have e : lastIndexByte (y :: (l ++ [x])) c
        = match lastIndexByte (l ++ [x]) c with
          | some i => some (i + 1)
          | none => if y = c then some 0 else none := by
      rw [lastIndexByte]
    rw [List.cons_append, e, ih, lastIndexByte]

/-- A host ending in a colon has a port in the sense of `hasPort`. -/
theorem hasPort_colon (l : List Char) : hasPort (l ++ [':']) = true := by
  have h1 : lastIndexByte (l ++ [':']) ':' = some (l.length + 0) :=
    lastIndexByte_append l [':'] ':' 0 (by simp [lastIndexByte])
  have h2 : lastIndexByte (l ++ [':']) ']' = lastIndexByte l ']' :=
    lastIndexByte_snoc l ':' ']' (by decide)
  unfold hasPort
  rw [h1, h2]
  cases h3 : lastIndexByte l ']' with
  | none => rfl
  | some j =>
    have hj := lastIndexByte_lt _ _ _ h3
    simp only [Nat.add_zero, decide_eq_true_eq]
    exact hj

/-- Trimming the colon that ends a list. -/
theorem TrimSuffix_colon (l : List Char) : TrimSuffix (l ++ [':']) [':'] = l := by
  unfold TrimSuffix
  have h : ([':'] : List Char).isSuffixOf (l ++ [':']) = true := by
    rw [List.isSuffixOf_iff_suffix]
    exact ⟨l, rfl⟩
  simp [h]

/-- Trimming a colon off a list that does not end in one changes nothing. -/
theorem TrimSuffix_other (l : List Char) (h : l.getLast? ≠ some ':') :
    TrimSuffix l [':'] = l := by
  unfold TrimSuffix
  have hs : ([':'] : List Char).isSuffixOf l = false := by
    rw [Bool.eq_false_iff]
    intro hsuf
    rw [List.isSuffixOf_iff_suffix] at hsuf
    obtain ⟨t, ht⟩ := hsuf
    apply h
    rw [← ht]
    simp
  simp [hs]

/-- An empty port is removed. -/
theorem removeEmptyPort_colon (h : String) : removeEmptyPort (h ++ ":") = h := by
  unfold removeEmptyPort
  have e : (h ++ ":").data = h.data ++ [':'] := by
    rw [String.data_append]
  rw [e, hasPort_colon, if_pos rfl, TrimSuffix_colon]

/-- A host that does not end in a colon is left as it is. -/
theorem removeEmptyPort_other (host : String) (h : host.data.getLast? ≠ some ':') :
    removeEmptyPort host = host := by
  unfold removeEmptyPort
  rw [TrimSuffix_other host.data h]
  split <;> rfl

/-- Every request issued by `replaceRecord` is the one `http.NewRequest` builds from its method and URL text. -/
theorem replaceRecord_built (w : World) (ip : IP) (piholeHost apiKey ollamaRecord : String) :
    ∀ req ∈ requestsOf (replaceRecord w ip piholeHost apiKey ollamaRecord).2,
      NewRequest w req.method req.url = RequestResult.ok req := by
  cases h₁ : w.urlParse (deleteURL (baseURL piholeHost) ollamaRecord (IP.String w ip) apiKey) with
  | fail e =>
    have e₀ : replaceRecord w ip piholeHost apiKey ollamaRecord = (Outcome.err e, []) := by
      simp [replaceRecord, NewRequest, h₁]
    rw [e₀]
    intro req hreq
    simp [requestsOf] at hreq
  | ok u₁ =>
    have hb₁ : NewRequest w MethodPost
        (deleteURL (baseURL piholeHost) ollamaRecord (IP.String w ip) apiKey)
        = RequestResult.ok
          ⟨MethodPost, deleteURL (baseURL piholeHost) ollamaRecord (IP.String w ip) apiKey,
            ⟨removeEmptyPort u₁.Host⟩⟩ := by
      simp [NewRequest, h₁]
    cases h₂ : w.clientDo 0
        ⟨MethodPost, deleteURL (baseURL piholeHost) ollamaRecord (IP.String w ip) apiKey,
          ⟨removeEmptyPort u₁.Host⟩⟩ with
    | fail e =>
      rw [replaceRecord_delete_fail w ip piholeHost apiKey ollamaRecord u₁ e h₁ h₂]
      intro req hreq
      simp only [requestsOf, List.mem_singleton] at hreq
      rw [hreq]
      exact hb₁
    | resp s₁ b₁ =>
      cases h₃ : w.urlParse
          (createURL (baseURL piholeHost) ollamaRecord (IP.String w ip) apiKey) with
      | fail e =>
        have e₀ : replaceRecord w ip piholeHost apiKey ollamaRecord
            = (Outcome.err e,
                [Event.request
                  ⟨MethodPost,
                    deleteURL (baseURL piholeHost) ollamaRecord (IP.String w ip) apiKey,
                    ⟨removeEmptyPort u₁.Host⟩⟩
                  (HttpResult.resp s₁ b₁)]) := by
          simp [replaceRecord, NewRequest, h₁, h₂, h₃]
        rw [e₀]
        intro req hreq
        simp only [requestsOf, List.mem_singleton] at hreq
        rw [hreq]
        exact hb₁
      | ok u₂ =>
        have hb₂ : NewRequest w MethodPost
            (createURL (baseURL piholeHost) ollamaRecord (IP.String w ip) apiKey)
            = RequestResult.ok
              ⟨MethodPost, createURL (baseURL piholeHost) ollamaRecord (IP.String w ip) apiKey,
                ⟨removeEmptyPort u₂.Host⟩⟩ := by
          simp [NewRequest, h₃]
        have hreqs := replaceRecord_delete_resp w ip piholeHost apiKey ollamaRecord u₁ u₂ s₁ b₁
          h₁ h₂ h₃
        rw [hreqs]
        intro req hreq
        simp only [List.mem_cons, List.mem_singleton, List.not_mem_nil, or_false] at hreq
        rcases hreq with h | h
        · rw [h]
          exact hb₁
        · rw [h]
          exact hb₂

/-! ## The claims -/

/-- Claim C1: with the health probe as an oracle, if the first `K` endpoints of
the list each probe as not healthy (transport error or status other than 200)
and endpoint `K+1` probes healthy, the selection loop of `main` leaves endpoint
`K+1` in `availableInstance`, and the probes issued are exactly the first `K+1`
endpoints, in list order, each once. -/
theorem selectInstance_first_healthy (w : World) (l : List String) (K : Nat) (hK : K < l.length)
    (hfirst : ∀ i (hi : i < K), (w.clientGet i (l.get ⟨i, Nat.lt_trans hi hK⟩)).healthy = false)
    (hnext : (w.clientGet K (l.get ⟨K, hK⟩)).healthy = true) :
    (selectInstance w 0 l).1 = l.get ⟨K, hK⟩ ∧
      probesOf (selectInstance w 0 l).2 = l.take (K + 1) := by
  have hsplit : l.take K ++ l.get ⟨K, hK⟩ :: l.drop (K + 1) = l := by
    rw [List.get_eq_getElem, ← List.drop_eq_getElem_cons hK, List.take_append_drop]
  have hlen : (l.take K).length = K := by
    simp [Nat.le_of_lt hK]
  have h := selectInstance_skip w (l.take K) (l.get ⟨K, hK⟩) (l.drop (K + 1)) 0
    (fun i hi => by
      have hi2 : i < K := by simpa [hlen] using hi
      have := hfirst i hi2
      simpa [List.getElem_take] using this)
    (by simpa [hlen] using hnext)
  rw [hsplit] at h
  refine ⟨h.1, ?_⟩
  rw [h.2]
  rw [List.take_succ, List.getElem?_eq_getElem hK]
  rfl

/-- Claim C1, instance: `selectInstance_first_healthy` applied to a sample run. -/
theorem selectInstance_first_healthy_witness :
    (selectInstance worldUp 0 ["http://a:80", "http://c:80", "http://b:80", "http://a:80"]).1
        = "http://b:80" ∧
      probesOf (selectInstance worldUp 0 ["http://a:80", "http://c:80", "http://b:80", "http://a:80"]).2
        = ["http://a:80", "http://c:80", "http://b:80"] :=
  selectInstance_first_healthy worldUp ["http://a:80", "http://c:80", "http://b:80", "http://a:80"] 2
    (by decide) (by decide) (by decide)

/-- Claim C2 fails as stated.  First run: parsing and resolution succeed and the
delete request fails at the transport level; `createDNSRecord` returns that
error after the delete request alone, without a create request.  Second run:
parsing and resolution succeed and the provider host contains a space, so
that no request can be built; `createDNSRecord` returns an error without any
request. -/
theorem createDNSRecord_delete_failure_counterexample :
    (worldDeleteDown.urlParse "http://203.0.113.5:8080" = ParseResult.ok ⟨"203.0.113.5:8080"⟩ ∧
      resolvedAddress worldDeleteDown (URL.Hostname ⟨"203.0.113.5:8080"⟩)
        = some (as16 [203, 0, 113, 5]) ∧
      createDNSRecord worldDeleteDown "http://203.0.113.5:8080" "pi.hole" "KEY" "ollama.lan"
        = (Outcome.err "connection refused",
            [Event.request
                ⟨"POST", "http://pi.hole/admin/api.php?customdns&action=delete&domain=ollama.lan&ip=203.0.113.5&auth=KEY", ⟨"pi.hole"⟩⟩
                (HttpResult.fail "connection refused"),
              Event.log Level.error "failed to delete existing DNS record"]) ∧
      requestsOf
          (createDNSRecord worldDeleteDown "http://203.0.113.5:8080" "pi.hole" "KEY" "ollama.lan").2
        ≠ [⟨"POST", "http://pi.hole/admin/api.php?customdns&action=delete&domain=ollama.lan&ip=203.0.113.5&auth=KEY", ⟨"pi.hole"⟩⟩,
            ⟨"POST", "http://pi.hole/admin/api.php?customdns&action=add&domain=ollama.lan&ip=203.0.113.5&auth=KEY", ⟨"pi.hole"⟩⟩]) ∧
    (worldUp.urlParse "http://203.0.113.5:8080" = ParseResult.ok ⟨"203.0.113.5:8080"⟩ ∧
      resolvedAddress worldUp (URL.Hostname ⟨"203.0.113.5:8080"⟩) = some (as16 [203, 0, 113, 5]) ∧
      createDNSRecord worldUp "http://203.0.113.5:8080" "pi hole" "KEY" "ollama.lan"
        = (Outcome.err "invalid URL", [])) := by
  decide

/-- Claim C2, amended: when parsing and resolution succeed and both provider
requests can be built, a delete request that is answered (with any status,
success or rejection) is followed by exactly one create request, and a delete
request that fails at the transport level makes `createDNSRecord` return that
error with the delete request as the only request. -/
theorem createDNSRecord_request_trace (w : World)
    (instanceURL piholeHost apiKey ollamaRecord : String) (u u₁ u₂ : URL) (ip : IP)
    (hparse : w.urlParse instanceURL = ParseResult.ok u)
    (hres : resolvedAddress w u.Hostname = some ip)
    (hnew₁ : w.urlParse (deleteURL (baseURL piholeHost) ollamaRecord (IP.String w ip) apiKey)
      = ParseResult.ok u₁)
    (hnew₂ : w.urlParse (createURL (baseURL piholeHost) ollamaRecord (IP.String w ip) apiKey)
      = ParseResult.ok u₂) :
    (∀ statusCode body,
        w.clientDo 0
            ⟨MethodPost, deleteURL (baseURL piholeHost) ollamaRecord (IP.String w ip) apiKey,
              ⟨removeEmptyPort u₁.Host⟩⟩
          = HttpResult.resp statusCode body →
        requestsOf (createDNSRecord w instanceURL piholeHost apiKey ollamaRecord).2
          = [⟨MethodPost, deleteURL (baseURL piholeHost) ollamaRecord (IP.String w ip) apiKey,
            ⟨removeEmptyPort u₁.Host⟩⟩,
              ⟨MethodPost, createURL (baseURL piholeHost) ollamaRecord (IP.String w ip) apiKey,
                ⟨removeEmptyPort u₂.Host⟩⟩]) ∧
      (∀ e,
        w.clientDo 0
            ⟨MethodPost, deleteURL (baseURL piholeHost) ollamaRecord (IP.String w ip) apiKey,
              ⟨removeEmptyPort u₁.Host⟩⟩
          = HttpResult.fail e →
        (createDNSRecord w instanceURL piholeHost apiKey ollamaRecord).1 = Outcome.err e ∧
        requestsOf (createDNSRecord w instanceURL piholeHost apiKey ollamaRecord).2
          = [⟨MethodPost,
              deleteURL (baseURL piholeHost) ollamaRecord (IP.String w ip) apiKey,
              ⟨removeEmptyPort u₁.Host⟩⟩]) := by
  obtain ⟨pre, hrun, hpre, -⟩ :=
    createDNSRecord_resolved w instanceURL piholeHost apiKey ollamaRecord u ip hparse hres
  constructor
  · intro s b hdel
    rw [hrun, requestsOf_append, hpre,
      replaceRecord_delete_resp w ip piholeHost apiKey ollamaRecord u₁ u₂ s b hnew₁ hdel hnew₂]
    rfl
  · intro e hdel
    rw [hrun, requestsOf_append, hpre,
      replaceRecord_delete_fail w ip piholeHost apiKey ollamaRecord u₁ e hnew₁ hdel]
    exact ⟨rfl, rfl⟩

/-- Claim C2, instance: `createDNSRecord_request_trace` applied to a sample run. -/
theorem createDNSRecord_request_trace_witness :
    requestsOf (createDNSRecord worldDeleteRejected "http://b:80" "pi.hole" "KEY" "ollama.lan").2
        = [⟨"POST", "http://pi.hole/admin/api.php?customdns&action=delete&domain=ollama.lan&ip=10.0.0.7&auth=KEY", ⟨"pi.hole"⟩⟩,
            ⟨"POST", "http://pi.hole/admin/api.php?customdns&action=add&domain=ollama.lan&ip=10.0.0.7&auth=KEY", ⟨"pi.hole"⟩⟩] ∧
      ((createDNSRecord worldDeleteDown "http://b:80" "pi.hole" "KEY" "ollama.lan").1
          = Outcome.err "connection refused" ∧
        requestsOf (createDNSRecord worldDeleteDown "http://b:80" "pi.hole" "KEY" "ollama.lan").2
          = [⟨"POST", "http://pi.hole/admin/api.php?customdns&action=delete&domain=ollama.lan&ip=10.0.0.7&auth=KEY", ⟨"pi.hole"⟩⟩]) :=
  ⟨(createDNSRecord_request_trace worldDeleteRejected "http://b:80" "pi.hole" "KEY" "ollama.lan"
      ⟨"b:80"⟩ ⟨"pi.hole"⟩ ⟨"pi.hole"⟩ [10, 0, 0, 7] (by decide) (by decide) (by decide)
      (by decide)).1 403 "Forbidden" (by decide),
    (createDNSRecord_request_trace worldDeleteDown "http://b:80" "pi.hole" "KEY" "ollama.lan"
      ⟨"b:80"⟩ ⟨"pi.hole"⟩ ⟨"pi.hole"⟩ [10, 0, 0, 7] (by decide) (by decide) (by decide)
      (by decide)).2 "connection refused" (by decide)⟩

/-- Claim C3, the code at a failing input: the provider answers the create
request with status 500, and `createDNSRecord` returns `nil` after logging
`DNS record created successfully`; `main` ends normally. -/
theorem createDNSRecord_rejected_create_reports_success :
    worldCreateRejected.clientDo 1
        ⟨"POST", "http://pi.hole/admin/api.php?customdns&action=add&domain=ollama.lan&ip=10.0.0.7&auth=KEY", ⟨"pi.hole"⟩⟩
      = HttpResult.resp 500 "Internal Server Error" ∧
    createDNSRecord worldCreateRejected "http://b:80" "pi.hole" "KEY" "ollama.lan"
      = (Outcome.ok,
          [Event.lookup "b" (LookupResult.addrs [[10, 0, 0, 7], [10, 0, 0, 8]]),
            Event.request
              ⟨"POST", "http://pi.hole/admin/api.php?customdns&action=delete&domain=ollama.lan&ip=10.0.0.7&auth=KEY", ⟨"pi.hole"⟩⟩
              (HttpResult.resp 200 ""),
            Event.request
              ⟨"POST", "http://pi.hole/admin/api.php?customdns&action=add&domain=ollama.lan&ip=10.0.0.7&auth=KEY", ⟨"pi.hole"⟩⟩
              (HttpResult.resp 500 "Internal Server Error"),
            Event.log Level.info "DNS record created successfully"]) ∧
    (main worldCreateRejected sampleSettings).1 = Exit.normal ∧
    (Level.info, "DNS record created successfully")
      ∈ logsOf (main worldCreateRejected sampleSettings).2 := by
  decide

/-- Claim C4, the code at a failing input: the host is a name and the lookup
returns no address and no error; `createDNSRecord` does not return an error
but panics on `ips[0]`, after the lookup and before any provider request. -/
theorem createDNSRecord_empty_lookup_panics :
    worldEmptyLookup.urlParse "http://ollama.local" = ParseResult.ok ⟨"ollama.local"⟩ ∧
    ParseIP worldEmptyLookup (URL.Hostname ⟨"ollama.local"⟩) = none ∧
    worldEmptyLookup.lookupIP "ollama.local" = LookupResult.addrs [] ∧
    createDNSRecord worldEmptyLookup "http://ollama.local" "pi.hole" "KEY" "ollama.lan"
      = (Outcome.panic "runtime error: index out of range [0] with length 0",
          [Event.lookup "ollama.local" (LookupResult.addrs [])]) := by
  decide

/-- Claim C5: when no endpoint of the list probes healthy (the empty list
included), `availableInstance` stays empty, `main` ends on the fatal path
`no available instances found` right after the probes, every endpoint has been
probed once, and no lookup and no provider request is made. -/
theorem main_no_healthy_instance (w : World) (settings : Settings)
    (hall : ∀ i (hi : i < settings.Instances.length),
      (w.clientGet i (settings.Instances.get ⟨i, hi⟩)).healthy = false) :
    (selectInstance w 0 settings.Instances).1 = "" ∧
      main w settings = (Exit.fatal "no available instances found",
        (selectInstance w 0 settings.Instances).2
          ++ [Event.log Level.fatal "no available instances found"]) ∧
      probesOf (main w settings).2 = settings.Instances ∧
      requestsOf (main w settings).2 = [] ∧
      lookupsOf (main w settings).2 = [] := by
  have hsel := selectInstance_none w settings.Instances 0 (by simpa using hall)
  have hreq := selectInstance_requests w settings.Instances 0
  have hmain : main w settings = (Exit.fatal "no available instances found",
      (selectInstance w 0 settings.Instances).2
        ++ [Event.log Level.fatal "no available instances found"]) := by
    unfold main
    simp only [hsel.1, if_true]
  refine ⟨hsel.1, hmain, ?_, ?_, ?_⟩
  · rw [hmain, probesOf_append, hsel.2]
    simp [probesOf]
  · rw [hmain, requestsOf_append, hreq.1]
    rfl
  · rw [hmain, lookupsOf_append, hreq.2]
    rfl

/-- Claim C5, instance: `main_no_healthy_instance` applied to a sample run. -/
theorem main_no_healthy_instance_witness :
    (selectInstance worldUp 0 ["http://a:80", "http://c:80"]).1 = "" ∧
      main worldUp ⟨["http://a:80", "http://c:80"], ⟨⟨"pi.hole", "KEY"⟩⟩, "ollama.lan"⟩
        = (Exit.fatal "no available instances found",
          (selectInstance worldUp 0 ["http://a:80", "http://c:80"]).2
            ++ [Event.log Level.fatal "no available instances found"]) ∧
      probesOf (main worldUp
          ⟨["http://a:80", "http://c:80"], ⟨⟨"pi.hole", "KEY"⟩⟩, "ollama.lan"⟩).2
        = ["http://a:80", "http://c:80"] ∧
      requestsOf (main worldUp
          ⟨["http://a:80", "http://c:80"], ⟨⟨"pi.hole", "KEY"⟩⟩, "ollama.lan"⟩).2 = [] ∧
      lookupsOf (main worldUp
          ⟨["http://a:80", "http://c:80"], ⟨⟨"pi.hole", "KEY"⟩⟩, "ollama.lan"⟩).2 = [] :=
  main_no_healthy_instance worldUp
    ⟨["http://a:80", "http://c:80"], ⟨⟨"pi.hole", "KEY"⟩⟩, "ollama.lan"⟩ (by decide)

/-- Claim C6: in a run that reaches the create request (parsing and resolution
succeed, both requests can be built, the delete request is answered) and in
which the create request fails at the transport level, `createDNSRecord`
returns that error, the requests issued are the delete request and then the
create request, the create request occurs exactly once, and `main`, when it
called `createDNSRecord` on this endpoint, ends on the fatal path
`failed to create DNS record` without a further request. -/
theorem createDNSRecord_create_transport_failure (w : World) (instances : List String)
    (instanceURL piholeHost apiKey ollamaRecord : String) (u u₁ u₂ : URL) (ip : IP)
    (s₁ : Int) (b₁ : String) (e : GoError)
    (hparse : w.urlParse instanceURL = ParseResult.ok u)
    (hres : resolvedAddress w u.Hostname = some ip)
    (hnew₁ : w.urlParse (deleteURL (baseURL piholeHost) ollamaRecord (IP.String w ip) apiKey)
      = ParseResult.ok u₁)
    (hdel : w.clientDo 0
      ⟨MethodPost, deleteURL (baseURL piholeHost) ollamaRecord (IP.String w ip) apiKey,
        ⟨removeEmptyPort u₁.Host⟩⟩
      = HttpResult.resp s₁ b₁)
    (hnew₂ : w.urlParse (createURL (baseURL piholeHost) ollamaRecord (IP.String w ip) apiKey)
      = ParseResult.ok u₂)
    (hadd : w.clientDo 1
      ⟨MethodPost, createURL (baseURL piholeHost) ollamaRecord (IP.String w ip) apiKey,
        ⟨removeEmptyPort u₂.Host⟩⟩
      = HttpResult.fail e) :
    (createDNSRecord w instanceURL piholeHost apiKey ollamaRecord).1 = Outcome.err e ∧
      requestsOf (createDNSRecord w instanceURL piholeHost apiKey ollamaRecord).2
        = [⟨MethodPost, deleteURL (baseURL piholeHost) ollamaRecord (IP.String w ip) apiKey,
          ⟨removeEmptyPort u₁.Host⟩⟩,
            ⟨MethodPost, createURL (baseURL piholeHost) ollamaRecord (IP.String w ip) apiKey,
              ⟨removeEmptyPort u₂.Host⟩⟩] ∧
      (requestsOf (createDNSRecord w instanceURL piholeHost apiKey ollamaRecord).2).count
          ⟨MethodPost, createURL (baseURL piholeHost) ollamaRecord (IP.String w ip) apiKey,
            ⟨removeEmptyPort u₂.Host⟩⟩ = 1 ∧
      ((selectInstance w 0 instances).1 = instanceURL → instanceURL ≠ "" →
        (main w ⟨instances, ⟨⟨piholeHost, apiKey⟩⟩, ollamaRecord⟩).1
            = Exit.fatal "failed to create DNS record" ∧
          requestsOf (main w ⟨instances, ⟨⟨piholeHost, apiKey⟩⟩, ollamaRecord⟩).2
            = [⟨MethodPost, deleteURL (baseURL piholeHost) ollamaRecord (IP.String w ip) apiKey,
              ⟨removeEmptyPort u₁.Host⟩⟩,
                ⟨MethodPost,
                  createURL (baseURL piholeHost) ollamaRecord (IP.String w ip) apiKey,
                    ⟨removeEmptyPort u₂.Host⟩⟩]) := by
  obtain ⟨pre, hrun, hpre, -⟩ :=
    createDNSRecord_resolved w instanceURL piholeHost apiKey ollamaRecord u ip hparse hres
  have hrep := replaceRecord_create_fail w ip piholeHost apiKey ollamaRecord u₁ u₂ s₁ b₁ e
    hnew₁ hdel hnew₂ hadd
  have hreq : requestsOf (createDNSRecord w instanceURL piholeHost apiKey ollamaRecord).2
      = [⟨MethodPost, deleteURL (baseURL piholeHost) ollamaRecord (IP.String w ip) apiKey,
        ⟨removeEmptyPort u₁.Host⟩⟩,
          ⟨MethodPost, createURL (baseURL piholeHost) ollamaRecord (IP.String w ip) apiKey,
            ⟨removeEmptyPort u₂.Host⟩⟩] := by
    rw [hrun, requestsOf_append, hpre, hrep]
    rfl
  have hne : (⟨MethodPost, deleteURL (baseURL piholeHost) ollamaRecord (IP.String w ip) apiKey,
    ⟨removeEmptyPort u₁.Host⟩⟩
      : Request)
      ≠ ⟨MethodPost, createURL (baseURL piholeHost) ollamaRecord (IP.String w ip) apiKey,
        ⟨removeEmptyPort u₂.Host⟩⟩ := by
    intro h
    exact deleteURL_ne_createURL _ _ _ _ _ _ _ _ rfl (congrArg Request.url h)
  refine ⟨by rw [hrun, hrep], hreq, ?_, ?_⟩
  · rw [hreq, List.count_cons_of_ne (Ne.symm hne), List.count_singleton_self]
  · intro hsel hne'
    have hout : createDNSRecord w (selectInstance w 0 instances).1 piholeHost apiKey ollamaRecord
        = (Outcome.err e, (createDNSRecord w instanceURL piholeHost apiKey ollamaRecord).2) := by
      rw [hsel, hrun, hrep]
    have hmain := main_of_err w ⟨instances, ⟨⟨piholeHost, apiKey⟩⟩, ollamaRecord⟩ e _
      (by rw [hsel]; exact hne') hout
    rw [hmain]
    refine ⟨rfl, ?_⟩
    simp only [requestsOf_append, (selectInstance_requests w instances 0).1, hreq]
    rfl

/-- Claim C6, instance: `createDNSRecord_create_transport_failure` applied to a sample run. -/
theorem createDNSRecord_create_transport_failure_witness :
    (createDNSRecord worldCreateDown "http://b:80" "pi.hole" "KEY" "ollama.lan").1
        = Outcome.err "connection reset" ∧
      requestsOf (createDNSRecord worldCreateDown "http://b:80" "pi.hole" "KEY" "ollama.lan").2
        = [⟨"POST", "http://pi.hole/admin/api.php?customdns&action=delete&domain=ollama.lan&ip=10.0.0.7&auth=KEY", ⟨"pi.hole"⟩⟩,
            ⟨"POST", "http://pi.hole/admin/api.php?customdns&action=add&domain=ollama.lan&ip=10.0.0.7&auth=KEY", ⟨"pi.hole"⟩⟩] ∧
      (requestsOf
          (createDNSRecord worldCreateDown "http://b:80" "pi.hole" "KEY" "ollama.lan").2).count
          ⟨"POST", "http://pi.hole/admin/api.php?customdns&action=add&domain=ollama.lan&ip=10.0.0.7&auth=KEY", ⟨"pi.hole"⟩⟩
        = 1 ∧
      (main worldCreateDown sampleSettings).1 = Exit.fatal "failed to create DNS record" ∧
      requestsOf (main worldCreateDown sampleSettings).2
        = [⟨"POST", "http://pi.hole/admin/api.php?customdns&action=delete&domain=ollama.lan&ip=10.0.0.7&auth=KEY", ⟨"pi.hole"⟩⟩,
            ⟨"POST", "http://pi.hole/admin/api.php?customdns&action=add&domain=ollama.lan&ip=10.0.0.7&auth=KEY", ⟨"pi.hole"⟩⟩] :=
  have h := createDNSRecord_create_transport_failure worldCreateDown
    ["http://a:80", "http://b:80"] "http://b:80" "pi.hole" "KEY" "ollama.lan" ⟨"b:80"⟩
    ⟨"pi.hole"⟩ ⟨"pi.hole"⟩ [10, 0, 0, 7] 200 "" "connection reset" (by decide) (by decide)
    (by decide) (by decide) (by decide) (by decide)
  ⟨h.1, h.2.1, h.2.2.1, h.2.2.2 (by decide) (by decide)⟩

/-- Claim C7: when the `Host` of the parsed endpoint is a dotted-decimal IPv4
literal, alone or followed by a port, `Hostname` is that literal,
`createDNSRecord` makes no lookup, the requests it issues are an initial part
of the delete request and the create request whose `ip` argument is that
literal, both are issued when it returns `nil`, and each is the request that
`http.NewRequest` builds from its method and URL text. -/
theorem createDNSRecord_literal_IPv4 (w : World)
    (instanceURL piholeHost apiKey ollamaRecord : String) (u : URL) (a b c d : Nat)
    (port : String) (ha : a < 256) (hb : b < 256) (hc : c < 256) (hd : d < 256)
    (hparse : w.urlParse instanceURL = ParseResult.ok u)
    (hport : validOptionalPort port.data = true)
    (hhost : u.Host = string4 a b c d ++ port) :
    u.Hostname = string4 a b c d ∧
      lookupsOf (createDNSRecord w instanceURL piholeHost apiKey ollamaRecord).2 = [] ∧
      requestTextsOf (createDNSRecord w instanceURL piholeHost apiKey ollamaRecord).2
        <+: [(MethodPost, deleteURL (baseURL piholeHost) ollamaRecord (string4 a b c d) apiKey),
          (MethodPost, createURL (baseURL piholeHost) ollamaRecord (string4 a b c d) apiKey)] ∧
      ((createDNSRecord w instanceURL piholeHost apiKey ollamaRecord).1 = Outcome.ok →
        requestTextsOf (createDNSRecord w instanceURL piholeHost apiKey ollamaRecord).2
          = [(MethodPost, deleteURL (baseURL piholeHost) ollamaRecord (string4 a b c d) apiKey),
            (MethodPost,
              createURL (baseURL piholeHost) ollamaRecord (string4 a b c d) apiKey)]) ∧
      (∀ req ∈ requestsOf (createDNSRecord w instanceURL piholeHost apiKey ollamaRecord).2,
        NewRequest w req.method req.url = RequestResult.ok req) := by
  have hname := Hostname_literal u a b c d port hport hhost
  have hip := ParseIP_string4 w a b c d ha hb hc hd
  have hrun : createDNSRecord w instanceURL piholeHost apiKey ollamaRecord
      = replaceRecord w (as16 [a, b, c, d]) piholeHost apiKey ollamaRecord := by
    simp [createDNSRecord, hparse, hname, hip]
  have h := replaceRecord_requests w (as16 [a, b, c, d]) piholeHost apiKey ollamaRecord
  have hbuilt := replaceRecord_built w (as16 [a, b, c, d]) piholeHost apiKey ollamaRecord
  rw [String_as16] at h
  rw [hrun]
  exact ⟨hname, h.2.1, h.1, h.2.2, hbuilt⟩

/-- Claim C7, instance: `createDNSRecord_literal_IPv4` applied to a sample run. -/
theorem createDNSRecord_literal_IPv4_witness :
    URL.Hostname ⟨"203.0.113.5:8080"⟩ = "203.0.113.5" ∧
      lookupsOf
          (createDNSRecord worldUp "http://203.0.113.5:8080" "pi.hole" "KEY" "ollama.lan").2
        = [] ∧
      requestTextsOf
          (createDNSRecord worldUp "http://203.0.113.5:8080" "pi.hole" "KEY" "ollama.lan").2
        = [("POST", "http://pi.hole/admin/api.php?customdns&action=delete&domain=ollama.lan&ip=203.0.113.5&auth=KEY"),
            ("POST", "http://pi.hole/admin/api.php?customdns&action=add&domain=ollama.lan&ip=203.0.113.5&auth=KEY")] ∧
      requestsOf
          (createDNSRecord worldUp "http://203.0.113.5:8080" "pi.hole" "KEY" "ollama.lan").2
        = [⟨"POST", "http://pi.hole/admin/api.php?customdns&action=delete&domain=ollama.lan&ip=203.0.113.5&auth=KEY", ⟨"pi.hole"⟩⟩,
            ⟨"POST", "http://pi.hole/admin/api.php?customdns&action=add&domain=ollama.lan&ip=203.0.113.5&auth=KEY", ⟨"pi.hole"⟩⟩] :=
  have h := createDNSRecord_literal_IPv4 worldUp "http://203.0.113.5:8080" "pi.hole" "KEY"
    "ollama.lan" ⟨"203.0.113.5:8080"⟩ 203 0 113 5 ":8080" (by decide) (by decide) (by decide)
    (by decide) (by decide) (by decide) (by decide)
  ⟨h.1, h.2.1, h.2.2.2.1 (by decide), by decide⟩

/-- Claim C8: when parsing and resolution succeed, both requests can be built
and both are answered, `createDNSRecord` returns `nil` and issues exactly two
`POST` requests, built from the URL texts
`http://<piholeHost>/admin/api.php?customdns&action=delete&domain=<ollamaRecord>&ip=<address>&auth=<apiKey>`
and the same text with `add` in place of `delete`.  The address is the text
of the resolved address, which is the literal host or the first address
returned by the lookup: for an IPv4 address, in 4-byte or IPv4-mapped form,
its four octets in decimal separated by dots, which for a dotted-decimal
literal host is the host text itself; for any other 16-byte address what Go
prints for an IPv6 address.  Each request goes to the host of its parsed URL,
of which `http.NewRequest` drops the colon of an empty port and which it
leaves as it is otherwise. -/
theorem createDNSRecord_success_trace (w : World)
    (instanceURL piholeHost apiKey ollamaRecord : String) (u u₁ u₂ : URL) (ip : IP)
    (s₁ s₂ : Int) (b₁ b₂ : String)
    (hparse : w.urlParse instanceURL = ParseResult.ok u)
    (hres : resolvedAddress w u.Hostname = some ip)
    (hnew₁ : w.urlParse (deleteURL (baseURL piholeHost) ollamaRecord (IP.String w ip) apiKey)
      = ParseResult.ok u₁)
    (hdel : w.clientDo 0
      ⟨MethodPost, deleteURL (baseURL piholeHost) ollamaRecord (IP.String w ip) apiKey,
        ⟨removeEmptyPort u₁.Host⟩⟩
      = HttpResult.resp s₁ b₁)
    (hnew₂ : w.urlParse (createURL (baseURL piholeHost) ollamaRecord (IP.String w ip) apiKey)
      = ParseResult.ok u₂)
    (hadd : w.clientDo 1
      ⟨MethodPost, createURL (baseURL piholeHost) ollamaRecord (IP.String w ip) apiKey,
        ⟨removeEmptyPort u₂.Host⟩⟩
      = HttpResult.resp s₂ b₂) :
    (createDNSRecord w instanceURL piholeHost apiKey ollamaRecord).1 = Outcome.ok ∧
      requestsOf (createDNSRecord w instanceURL piholeHost apiKey ollamaRecord).2
        = [⟨"POST", ("http://" ++ piholeHost ++ "/admin/api.php?customdns&action=") ++ "delete"
              ++ ("&domain=" ++ ollamaRecord ++ "&ip=" ++ IP.String w ip ++ "&auth=" ++ apiKey),
              ⟨removeEmptyPort u₁.Host⟩⟩,
            ⟨"POST", ("http://" ++ piholeHost ++ "/admin/api.php?customdns&action=") ++ "add"
              ++ ("&domain=" ++ ollamaRecord ++ "&ip=" ++ IP.String w ip ++ "&auth=" ++ apiKey),
              ⟨removeEmptyPort u₂.Host⟩⟩] ∧
      (ParseIP w u.Hostname = some ip ∨
        (ParseIP w u.Hostname = none ∧
          ∃ rest, w.lookupIP u.Hostname = LookupResult.addrs (ip :: rest))) ∧
      (∀ a b c d : Nat, a < 256 → b < 256 → c < 256 → d < 256 →
        (ip = [a, b, c, d] ∨ ip = as16 [a, b, c, d] ∨
          u.Hostname = toString a ++ "." ++ toString b ++ "." ++ toString c ++ "." ++ toString d) →
        IP.String w ip
          = toString a ++ "." ++ toString b ++ "." ++ toString c ++ "." ++ toString d) ∧
      (ip.length = 16 → To4 ip = [] → IP.String w ip = w.ipv6String ip) ∧
      ((∀ h : String, u₁.Host = h ++ ":" → removeEmptyPort u₁.Host = h) ∧
        (u₁.Host.data.getLast? ≠ some ':' → removeEmptyPort u₁.Host = u₁.Host)) ∧
      ((∀ h : String, u₂.Host = h ++ ":" → removeEmptyPort u₂.Host = h) ∧
        (u₂.Host.data.getLast? ≠ some ':' → removeEmptyPort u₂.Host = u₂.Host)) := by
  obtain ⟨pre, hrun, hpre, -⟩ :=
    createDNSRecord_resolved w instanceURL piholeHost apiKey ollamaRecord u ip hparse hres
  have hrep := replaceRecord_create_resp w ip piholeHost apiKey ollamaRecord u₁ u₂ s₁ s₂ b₁ b₂
    hnew₁ hdel hnew₂ hadd
  refine ⟨by rw [hrun, hrep], ?_, resolvedAddress_spec w u.Hostname ip hres, ?_,
    String_v6 w ip,
    ⟨fun h hh => by rw [hh, removeEmptyPort_colon], removeEmptyPort_other u₁.Host⟩,
    ⟨fun h hh => by rw [hh, removeEmptyPort_colon], removeEmptyPort_other u₂.Host⟩⟩
  · rw [hrun, requestsOf_append, hpre, hrep, ← deleteURL_shape, ← createURL_shape]
    rfl
  · intro a b c d ha hb hc hd hip
    rw [← string4_toString a b c d ha hb hc hd] at hip ⊢
    rcases hip with h | h | h
    · rw [h, String_v4]
    · rw [h, String_as16]
    · have hp := ParseIP_string4 w a b c d ha hb hc hd
      rw [← h] at hp
      have hr : resolvedAddress w u.Hostname = some (as16 [a, b, c, d]) := by
        simp [resolvedAddress, hp]
      rw [hr] at hres
      simp only [Option.some.injEq] at hres
      rw [← hres, String_as16]

/-- Claim C8, instance: `createDNSRecord_success_trace` applied to two sample
runs, one on a named host with the provider host `pi.hole`, one on a literal
host with the provider host `pi.hole:`. -/
theorem createDNSRecord_success_trace_witness :
    ((createDNSRecord worldUp "http://b:80" "pi.hole" "KEY" "ollama.lan").1 = Outcome.ok ∧
      requestsOf (createDNSRecord worldUp "http://b:80" "pi.hole" "KEY" "ollama.lan").2
        = [⟨"POST", "http://pi.hole/admin/api.php?customdns&action=delete&domain=ollama.lan&ip=10.0.0.7&auth=KEY", ⟨"pi.hole"⟩⟩,
            ⟨"POST", "http://pi.hole/admin/api.php?customdns&action=add&domain=ollama.lan&ip=10.0.0.7&auth=KEY", ⟨"pi.hole"⟩⟩] ∧
      worldUp.lookupIP "b" = LookupResult.addrs [[10, 0, 0, 7], [10, 0, 0, 8]] ∧
      IP.String worldUp [10, 0, 0, 7] = "10.0.0.7") ∧
    ((createDNSRecord worldUp "http://203.0.113.5:8080" "pi.hole:" "KEY" "ollama.lan").1
        = Outcome.ok ∧
      requestsOf
          (createDNSRecord worldUp "http://203.0.113.5:8080" "pi.hole:" "KEY" "ollama.lan").2
        = [⟨"POST", "http://pi.hole:/admin/api.php?customdns&action=delete&domain=ollama.lan&ip=203.0.113.5&auth=KEY", ⟨"pi.hole"⟩⟩,
            ⟨"POST", "http://pi.hole:/admin/api.php?customdns&action=add&domain=ollama.lan&ip=203.0.113.5&auth=KEY", ⟨"pi.hole"⟩⟩] ∧
      IP.String worldUp (as16 [203, 0, 113, 5]) = "203.0.113.5" ∧
      removeEmptyPort "pi.hole:" = "pi.hole") :=
  have h := createDNSRecord_success_trace worldUp "http://b:80" "pi.hole" "KEY" "ollama.lan"
    ⟨"b:80"⟩ ⟨"pi.hole"⟩ ⟨"pi.hole"⟩ [10, 0, 0, 7] 200 200 "" "" (by decide) (by decide)
    (by decide) (by decide) (by decide) (by decide)
  have h' := createDNSRecord_success_trace worldUp "http://203.0.113.5:8080" "pi.hole:" "KEY"
    "ollama.lan" ⟨"203.0.113.5:8080"⟩ ⟨"pi.hole:"⟩ ⟨"pi.hole:"⟩ (as16 [203, 0, 113, 5])
    200 200 "" "" (by decide) (by decide) (by decide) (by decide) (by decide) (by decide)
  ⟨⟨h.1, h.2.1.trans (by decide), by decide,
      (h.2.2.2.1 10 0 0 7 (by decide) (by decide) (by decide) (by decide)
        (Or.inl rfl)).trans (by decide)⟩,
    ⟨h'.1, h'.2.1.trans (by decide),
      (h'.2.2.2.1 203 0 113 5 (by decide) (by decide) (by decide) (by decide)
        (Or.inr (Or.inr (by decide)))).trans (by decide),
      h'.2.2.2.2.2.1.1 "pi.hole" (by decide)⟩⟩

/-- Claim C9: when `url.Parse` rejects the endpoint, or the host is a name whose
lookup returns an error, `createDNSRecord` returns that error and issues no
provider request (and, in the first case, no lookup either). -/
theorem createDNSRecord_short_circuit (w : World)
    (instanceURL piholeHost apiKey ollamaRecord : String) :
    (∀ e, w.urlParse instanceURL = ParseResult.fail e →
        (createDNSRecord w instanceURL piholeHost apiKey ollamaRecord).1 = Outcome.err e ∧
        requestsOf (createDNSRecord w instanceURL piholeHost apiKey ollamaRecord).2 = [] ∧
        lookupsOf (createDNSRecord w instanceURL piholeHost apiKey ollamaRecord).2 = []) ∧
      (∀ u e, w.urlParse instanceURL = ParseResult.ok u → ParseIP w u.Hostname = none →
        w.lookupIP u.Hostname = LookupResult.fail e →
        (createDNSRecord w instanceURL piholeHost apiKey ollamaRecord).1 = Outcome.err e ∧
        requestsOf (createDNSRecord w instanceURL piholeHost apiKey ollamaRecord).2 = []) := by
  constructor
  · intro e h
    simp [createDNSRecord, h, requestsOf, lookupsOf]
  · intro u e h hp hl
    simp [createDNSRecord, h, hp, hl, requestsOf]

/-- Claim C9, instance: `createDNSRecord_short_circuit` applied to a sample run. -/
theorem createDNSRecord_short_circuit_witness :
    ((createDNSRecord worldUp "http://%zz" "pi.hole" "KEY" "ollama.lan").1
        = Outcome.err "invalid URL" ∧
      requestsOf (createDNSRecord worldUp "http://%zz" "pi.hole" "KEY" "ollama.lan").2 = [] ∧
      lookupsOf (createDNSRecord worldUp "http://%zz" "pi.hole" "KEY" "ollama.lan").2 = []) ∧
    ((createDNSRecord worldUp "http://nowhere" "pi.hole" "KEY" "ollama.lan").1
        = Outcome.err "no such host" ∧
      requestsOf (createDNSRecord worldUp "http://nowhere" "pi.hole" "KEY" "ollama.lan").2 = []) :=
  ⟨(createDNSRecord_short_circuit worldUp "http://%zz" "pi.hole" "KEY" "ollama.lan").1
      "invalid URL" (by decide),
    (createDNSRecord_short_circuit worldUp "http://nowhere" "pi.hole" "KEY" "ollama.lan").2
      ⟨"nowhere"⟩ "no such host" (by decide) (by decide) (by decide)⟩

/-- Claim C10: `checkAvailability` gives `(false, err)` on a transport failure,
`(false, nil)` on a response whose status is not 200, `(true, nil)` on a
response with status 200; it never gives `true` together with an error, and
two responses with the same status give the same result whatever their
bodies. -/
theorem checkAvailability_classification (w : World) (n : Nat) (url : String) :
    (∀ err, w.clientGet n url = HttpResult.fail err →
        (checkAvailability w n url).1 = (false, some err)) ∧
      (∀ statusCode body, w.clientGet n url = HttpResult.resp statusCode body →
        statusCode ≠ 200 → (checkAvailability w n url).1 = (false, none)) ∧
      (∀ body, w.clientGet n url = HttpResult.resp 200 body →
        (checkAvailability w n url).1 = (true, none)) ∧
      (∀ err, (checkAvailability w n url).1 ≠ (true, some err)) ∧
      (∀ (w' : World) (n' : Nat) (url' : String) (statusCode : Int) (body body' : String),
        w.clientGet n url = HttpResult.resp statusCode body →
        w'.clientGet n' url' = HttpResult.resp statusCode body' →
        (checkAvailability w' n' url').1 = (checkAvailability w n url).1) := by
  refine ⟨?_, ?_, ?_, ?_, ?_⟩
  · intro err h
    simp [checkAvailability, h]
  · intro s b h hs
    simp [checkAvailability, h, StatusOK, hs]
  · intro b h
    simp [checkAvailability, h, StatusOK]
  · intro err
    unfold checkAvailability
    cases w.clientGet n url with
    | fail e => simp
    | resp s b => by_cases hs : s = StatusOK <;> simp [hs]
  · intro w' n' url' s b b' h h'
    unfold checkAvailability
    rw [h, h']
    by_cases hs : s = StatusOK <;> simp [hs]

/-- Claim C10, instance: `checkAvailability_classification` applied to a sample run. -/
theorem checkAvailability_classification_witness :
    (checkAvailability worldUp 0 "http://a:80").1 = (false, none) :=
  (checkAvailability_classification worldUp 0 "http://a:80").2.1 500 "Internal Server Error"
    (by decide) (by decide)

end OllamaDNSRouter
